import Mathlib

/-!
Verification of the `tailfs` package (SMB daemon supervisor).

The Go source (src/tailfs/tailfs.go) is shallowly embedded as follows:

* The filesystem is a finite association list from absolute paths to
  entries (regular file with permission bits and content, or directory
  with permission bits).  `os.MkdirAll`'s creation of intermediate
  parents is elided: a directory is tracked by its full path only,
  which is all the claims need.
* OS calls that can fail for environmental reasons (stat with a
  non-"not exist" error, directory creation, file creation, TCP
  listen, pipe creation) take their outcome from a fault-injection
  oracle `OSEnv`.  `none` means the call succeeds against the modelled
  filesystem; `some msg` means the OS reports error text `msg`.
* Every OS interaction appends an `Event` to a trace, so ordering
  claims (what happens before what) are read off the trace.
* Goroutines: the two output relays and the supervisor loop are
  spawned concurrently; their spawn points appear in the trace, and
  the supervisor loop itself is modelled separately by
  `supervisorIter`/`supervisorTrace` over an oracle giving the outcome
  of the n-th `cmd.Run` call.
* Go permission literals 0755/0644 become the Lean octal literals
  0o755/0o644; `fmt.Errorf` wrapping becomes string concatenation.
-/

/-- `Opts` from the source: base state directory and smbd binary path. -/
structure Opts where
  StateDir : String
  SMBDCommand : String
deriving DecidableEq, Repr

/-- `directorySetting` from the source. -/
structure directorySetting where
  Setting : String
  AbsolutePath : String := ""
  path : String
  perm : Nat
deriving DecidableEq, Repr

/-- `directorySettings()` from the source: the fixed ordered list of
directory descriptors. -/
def directorySettings : List directorySetting :=
  [ { Setting := "state directory", path := "", perm := 0o755 },
    { Setting := "log file", path := "log", perm := 0o755 },
    { Setting := "pid directory", path := "pid", perm := 0o755 },
    { Setting := "lock directory", path := "private", perm := 0o755 },
    { Setting := "private dir", path := "private", perm := 0o755 },
    { Setting := "binddns dir", path := "bind-dns", perm := 0o755 },
    { Setting := "cache directory", path := "cache", perm := 0o755 },
    { Setting := "ncalrpc dir", path := "ncalrpc", perm := 0o755 },
    { Setting := "ntp signed socket directory", path := "ntp_signd", perm := 0o755 },
    { Setting := "usershare path", path := "usershares", perm := 0o755 },
    { Setting := "winbdd socket directory", path := "winbindd", perm := 0o755 } ]

/-- Go's `filepath.Join(base, sub)` restricted to the shapes this
package uses: a cleaned base path (no trailing slash) and a relative
subpath that is either empty or a clean name.  Joining the empty
subpath yields the base itself; otherwise the two are joined with a
single slash. -/
def filepathJoin (base sub : String) : String :=
  if sub = "" then base else base ++ "/" ++ sub

/-- A filesystem entry: a regular file (permission bits, content) or a
directory (permission bits). -/
inductive Entry
  | file (perm : Nat) (content : String)
  | dir (perm : Nat)
deriving DecidableEq, Repr

/-- The modelled filesystem: association list from absolute path to entry. -/
structure FS where
  entries : List (String × Entry)
deriving DecidableEq, Repr

def FS.lookup (fs : FS) (p : String) : Option Entry :=
  (fs.entries.find? (fun e => e.1 == p)).map Prod.snd

def FS.insert (fs : FS) (p : String) (e : Entry) : FS :=
  ⟨(p, e) :: fs.entries.filter (fun q => !(q.1 == p))⟩

/-- Trace events recording each OS interaction in program order. -/
inductive Event
  | mkdirAll (path : String) (perm : Nat)
  | stat (path : String)
  | openFileCreate (path : String) (perm : Nat)
  | templateExecute (path : String)
  | listen (addr : String)
  | closeListener
  | command (name : String) (args : List String)
  | stdoutPipe
  | stderrPipe
  | goRelayStdout
  | goRelayStderr
  | goSupervisor
deriving DecidableEq, Repr

/-- Fault-injection oracle for the OS calls the package makes.  The
supervisor loop's `cmd.Run` outcomes are a separate oracle (see
`supervisorTrace`) because the loop runs concurrently after `start`
returns. -/
structure OSEnv where
  /-- `some msg`: `os.Stat` on this path fails with an error other
  than "not exist" (e.g. permission denied on a parent). -/
  statErr : String → Option String
  /-- `some msg`: `os.MkdirAll` on this path fails. -/
  mkdirErr : String → Option String
  /-- `some msg`: `os.OpenFile(..., O_CREATE|O_WRONLY, ...)` fails. -/
  openErr : String → Option String
  /-- `net.Listen("tcp", "127.0.0.1:0")`: the OS-assigned port, or an
  error message. -/
  listen : Except String Nat
  /-- `some msg`: `cmd.StdoutPipe()` fails. -/
  stdoutPipeErr : Option String
  /-- `some msg`: `cmd.StderrPipe()` fails. -/
  stderrPipeErr : Option String

/-- Program state threaded through the embedding: the filesystem plus
the chronological event trace. -/
structure St where
  fs : FS
  trace : List Event
deriving DecidableEq, Repr

def St.emit (st : St) (e : Event) : St :=
  { st with trace := st.trace ++ [e] }

/-- Result of `os.Stat`: success, a "not exist" error, or some other error. -/
inductive StatRes
  | ok
  | notExist
  | err (msg : String)
deriving DecidableEq, Repr

/-- `os.Stat` against the modelled filesystem, with injected faults. -/
def osStat (env : OSEnv) (st : St) (p : String) : StatRes × St :=
  let st := st.emit (.stat p)
  match env.statErr p with
  | some m => (.err m, st)
  | none =>
    match st.fs.lookup p with
    | some _ => (.ok, st)
    | none => (.notExist, st)

/-- `os.MkdirAll` against the modelled filesystem: succeeds and is a
no-op if a directory already exists at the path, errors if a regular
file occupies the path, creates a directory with the given permission
bits otherwise.  Intermediate parents are elided. -/
def osMkdirAll (env : OSEnv) (st : St) (p : String) (perm : Nat) :
    Option String × St :=
  let st := st.emit (.mkdirAll p perm)
  match env.mkdirErr p with
  | some m => (some m, st)
  | none =>
    match st.fs.lookup p with
    | some (.dir _) => (none, st)
    | some (.file _ _) => (some "not a directory", st)
    | none => (none, { st with fs := st.fs.insert p (.dir perm) })

/-- `os.OpenFile(p, O_CREATE|O_WRONLY, perm)`: creates an empty file
when the path is absent; without `O_TRUNC`, an existing file keeps its
content. -/
def osOpenFileCreate (env : OSEnv) (st : St) (p : String) (perm : Nat) :
    Option String × St :=
  let st := st.emit (.openFileCreate p perm)
  match env.openErr p with
  | some m => (some m, st)
  | none =>
    match st.fs.lookup p with
    | some _ => (none, st)
    | none => (none, { st with fs := st.fs.insert p (.file perm "") })

/-- Overwrite the content of the file at `p`, keeping its permission
bits (models writing through the handle opened by `osOpenFileCreate`). -/
def St.writeFile (st : St) (p : String) (content : String) : St :=
  match st.fs.lookup p with
  | some (.file perm _) => { st with fs := st.fs.insert p (.file perm content) }
  | _ => st

/-- `Server` from the source.  `cmd` (an `*exec.Cmd`) is represented
by the command name and argument list that `exec.Command` receives. -/
structure Server where
  opts : Opts
  smbConfPath : String
  cmdName : String := ""
  cmdArgs : List String := []
  Port : Nat := 0
deriving DecidableEq, Repr

/-- Literal text of `smbConfTemplate` before the `{{ range . }}`
action (the `log level` line is indented with two tabs in the source). -/
def smbConfHeader : String :=
  "\n[global]\n        server role     = standalone server\n        interfaces      = 127.0.0.1\n        registry shares = no\n        config backend  = file\n\t\tlog level       = 5\n        "

/-- Literal text of the `{{ range . }}` body with the two field
actions substituted: what one loop iteration of the template emits. -/
def renderDescriptor (d : directorySetting) : String :=
  "\n        " ++ d.Setting ++ " = " ++ d.AbsolutePath ++ "\n        "

/-- The `smbConfTemplate` constant from the source, verbatim (the
template-action braces are written with character escapes). -/
def smbConfTemplate : String :=
  smbConfHeader ++ "\x7b\x7b range . \x7d\x7d" ++
    "\n        \x7b\x7b .Setting \x7d\x7d = \x7b\x7b .AbsolutePath \x7d\x7d\n        " ++
    "\x7b\x7b end \x7d\x7d" ++ "\n"

/-- Concatenation of the per-descriptor template-body instances, in
descriptor order. -/
def renderBody : List directorySetting → String
  | [] => ""
  | d :: rest => renderDescriptor d ++ renderBody rest

/-- What Go's `text/template` produces when executing
`smbConfTemplate` on a descriptor list: the literal header, one body
instance per descriptor in order, and the trailing newline.  Parsing
the constant template cannot fail, and execution on
`directorySetting` values (whose `Setting`/`AbsolutePath` fields
exist) cannot fail either, so rendering is a total function. -/
def renderSMBConf (ds : List directorySetting) : String :=
  smbConfHeader ++ renderBody ds ++ "\n"

/-- The descriptor list after the bootstrap loop has filled in every
`AbsolutePath` (`d.AbsolutePath = filepath.Join(s.opts.StateDir, d.path)`). -/
def populatedDirectorySettings (stateDir : String) : List directorySetting :=
  directorySettings.map (fun d => { d with AbsolutePath := filepathJoin stateDir d.path })

/-- The bootstrap loop over the descriptors: create each absolute
directory in order; stop at the first failure, returning the failing
path and the OS error. -/
def mkdirAllList (env : OSEnv) (st : St) :
    List directorySetting → Option (String × String) × St
  | [] => (none, st)
  | d :: rest =>
    match osMkdirAll env st d.AbsolutePath d.perm with
    | (some m, st) => (some (d.AbsolutePath, m), st)
    | (none, st) => mkdirAllList env st rest

/-- `Server.initSMBConfIfNecessary` from the source: skip when the
config file exists; propagate non-"not exist" stat errors; otherwise
create the file (mode 0644), create every descriptor directory, and
render the template into the file. -/
def Server.initSMBConfIfNecessary (env : OSEnv) (s : Server) (st : St) :
    Except String Unit × St :=
  match osStat env st s.smbConfPath with
  | (.ok, st) => (.ok (), st)
  | (.err m, st) => (.error ("check " ++ s.smbConfPath ++ " exists: " ++ m), st)
  | (.notExist, st) =>
    match osOpenFileCreate env st s.smbConfPath 0o644 with
    | (some m, st) => (.error ("create " ++ s.smbConfPath ++ ": " ++ m), st)
    | (none, st) =>
      let ds := populatedDirectorySettings s.opts.StateDir
      match mkdirAllList env st ds with
      | (some (p, m), st) => (.error ("create " ++ p ++ ": " ++ m), st)
      | (none, st) =>
        ((.ok ()), ((st.emit (.templateExecute s.smbConfPath)).writeFile
          s.smbConfPath (renderSMBConf ds)))

/-- `Server.start` from the source: reserve a loopback port, release
the listener, build the smbd command line, wire up both pipes, spawn
the two relay goroutines and the supervisor goroutine, and return. -/
def Server.start (env : OSEnv) (s : Server) (st : St) :
    Except String Server × St :=
  let st := st.emit (.listen "127.0.0.1:0")
  match env.listen with
  | .error m => (.error ("listen: " ++ m), st)
  | .ok port =>
    let s := { s with Port := port }
    let st := st.emit .closeListener
    let args := ["--configfile=" ++ s.smbConfPath, "--port=" ++ toString s.Port,
      "--foreground", "--no-process-group", "--debug-stdout"]
    let s := { s with cmdName := s.opts.SMBDCommand, cmdArgs := args }
    let st := st.emit (.command s.opts.SMBDCommand args)
    let st := st.emit .stdoutPipe
    match env.stdoutPipeErr with
    | some m => (.error ("stdout pipe: " ++ m), st)
    | none =>
      let st := st.emit .stderrPipe
      match env.stderrPipeErr with
      | some m => (.error ("stderr pipe: " ++ m), st)
      | none =>
        let st := st.emit .goRelayStdout
        let st := st.emit .goRelayStderr
        let st := st.emit .goSupervisor
        (.ok s, st)

/-- `Start` from the source: create the state directory, resolve the
config path, bootstrap the config if necessary, then start the
supervisor. -/
def Start (env : OSEnv) (opts : Opts) (st : St) : Except String Server × St :=
  match osMkdirAll env st opts.StateDir 0o755 with
  | (some m, st) => (.error ("create state directory: " ++ m), st)
  | (none, st) =>
    let s : Server := { opts := opts,
                        smbConfPath := filepathJoin opts.StateDir "smb.conf" }
    match s.initSMBConfIfNecessary env st with
    | (.error m, st) => (.error ("init smb.conf: " ++ m), st)
    | (.ok (), st) =>
      match s.start env st with
      | (.error m, st) => (.error ("start: " ++ m), st)
      | (.ok s, st) => (.ok s, st)

/-- Observable actions of one iteration of the supervisor goroutine. -/
inductive LoopEvent
  | run
  | logRestart (msg : String)
  | sleepSeconds (n : Nat)
deriving DecidableEq, Repr

/-- One iteration of the supervisor loop body
`if err := s.cmd.Run(); err != nil { log; time.Sleep(1s) }`, given the
outcome of this iteration's `cmd.Run` (`none` = the subprocess ran and
exited with status zero; `some msg` = `Run` returned an error, which
covers non-zero exit status and failure to launch at all). -/
def supervisorIter (runRes : Option String) : List LoopEvent :=
  .run :: match runRes with
  | some m => [.logRestart m, .sleepSeconds 1]
  | none => []

/-- The first `n` iterations of the unbounded supervisor loop, where
`runErr k` is the outcome of the k-th `cmd.Run` call.  The loop has no
exit: it is defined for every `n`. -/
def supervisorTrace (runErr : Nat → Option String) : Nat → List LoopEvent
  | 0 => []
  | n + 1 => supervisorTrace runErr n ++ supervisorIter (runErr n)

/-- Split a character sequence at every newline (the behaviour of
reading the rendered file line by line). -/
def splitLinesCh : List Char → List (List Char)
  | [] => [[]]
  | c :: rest =>
    if c = '\n' then [] :: splitLinesCh rest
    else
      match splitLinesCh rest with
      | [] => [[c]]
      | l :: ls => (c :: l) :: ls

/-- Strip leading and trailing whitespace from a line. -/
def trimCh (l : List Char) : List Char :=
  ((l.dropWhile Char.isWhitespace).reverse.dropWhile Char.isWhitespace).reverse

/-- The whitespace-trimmed, non-blank lines of a rendered file, in
order: the observable content of the generated configuration. -/
def confLines (s : String) : List (List Char) :=
  ((splitLinesCh s.data).map trimCh).filter (fun l => !l.isEmpty)

/-- The rendered configuration, line by line (each entry is one line's
characters, without its terminating newline): the blank first line,
the `[global]` header, the five fixed keys, and then, per descriptor,
an indentation-only line followed by the descriptor's setting line;
the file ends with an indentation-only line. -/
def confLinesRaw (stateDir : String) : List (List Char) :=
  [[], ("[global]" : String).data,
   ("        server role     = standalone server" : String).data,
   ("        interfaces      = 127.0.0.1" : String).data,
   ("        registry shares = no" : String).data,
   ("        config backend  = file" : String).data,
   ("\t\tlog level       = 5" : String).data]
  ++ (directorySettings.flatMap (fun d =>
      [("        " : String).data,
       ("        " : String).data
         ++ (d.Setting ++ " = " ++ filepathJoin stateDir d.path).data]))
  ++ [("        " : String).data]

/-- An empty initial state: empty filesystem, empty trace. -/
def st0 : St := ⟨⟨[]⟩, []⟩

/-- Concrete options used to exercise the model. -/
def optsA : Opts := { StateDir := "/tmp/st", SMBDCommand := "/usr/sbin/smbd" }

/-- An environment in which every OS call succeeds and the OS assigns
port 44123. -/
def envAllOK : OSEnv :=
  { statErr := fun _ => none, mkdirErr := fun _ => none, openErr := fun _ => none,
    listen := .ok 44123, stdoutPipeErr := none, stderrPipeErr := none }

/-- Options whose `SMBDCommand` points at a missing executable. -/
def optsMissingSMBD : Opts :=
  { StateDir := "/tmp/st", SMBDCommand := "/nonexistent/smbd" }

/-- `cmd.Run` outcomes when the executable cannot be launched: every
run attempt fails immediately. -/
def runErrLaunchFail : Nat → Option String :=
  fun _ => some "fork/exec /nonexistent/smbd: no such file or directory"

/-- `cmd.Run` outcomes when the subprocess always exits with status
zero: `Run` returns no error. -/
def runErrAlwaysZero : Nat → Option String := fun _ => none

/-- An environment in which creating the `log` state subdirectory
fails (e.g. permission denied) while everything else succeeds. -/
def envLogMkdirFails : OSEnv :=
  { statErr := fun _ => none,
    mkdirErr := fun p => if p = "/tmp/st/log" then some "permission denied" else none,
    openErr := fun _ => none,
    listen := .ok 44123, stdoutPipeErr := none, stderrPipeErr := none }

/-- An environment in which `os.Stat` on the configuration path fails
with an error other than "not exist". -/
def envStatFails : OSEnv :=
  { statErr := fun p => if p = "/tmp/st/smb.conf" then some "permission denied" else none,
    mkdirErr := fun _ => none, openErr := fun _ => none,
    listen := .ok 44123, stdoutPipeErr := none, stderrPipeErr := none }

/-- An environment in which binding the loopback listener fails. -/
def envListenFails : OSEnv :=
  { statErr := fun _ => none, mkdirErr := fun _ => none, openErr := fun _ => none,
    listen := .error "address already in use", stdoutPipeErr := none,
    stderrPipeErr := none }

/-- The `Server` value `Start` builds for `optsA` before `start` runs. -/
def serverA : Server := { opts := optsA, smbConfPath := "/tmp/st/smb.conf" }

theorem string_ext {a b : String} (h : a.data = b.data) : a = b := by
  cases a; cases b; exact congrArg String.mk h

theorem FS.lookup_insert_self (fs : FS) (p : String) (e : Entry) :
    (fs.insert p e).lookup p = some e := by
  simp [FS.insert, FS.lookup, List.find?]

theorem find?_filter_keyne (l : List (String × Entry)) (p q : String) (h : ¬ q = p) :
    List.find? (fun x => x.1 == q) (l.filter (fun x => !(x.1 == p))) =
      List.find? (fun x => x.1 == q) l := by
  induction l with
  | nil => rfl
  | cons a l ih =>
    have hqp : (q == p) = false := by
      simp only [beq_eq_false_iff_ne, ne_eq]; exact h
    have hpq : (p == q) = false := by
      simp only [beq_eq_false_iff_ne, ne_eq]; exact fun e => h e.symm
    by_cases hap : a.1 = p
    · have haq : (a.1 == q) = false := by rw [hap]; exact hpq
      simp [List.filter, List.find?, hap, haq, hpq, ih]
    · have hap' : (a.1 == p) = false := by
        simp only [beq_eq_false_iff_ne, ne_eq]; exact hap
      by_cases haq : a.1 = q
      · simp [List.filter, List.find?, hap', haq, hqp]
      · have haq' : (a.1 == q) = false := by
          simp only [beq_eq_false_iff_ne, ne_eq]; exact haq
        simp [List.filter, List.find?, hap', haq', ih]

theorem FS.lookup_insert_ne (fs : FS) (p q : String) (e : Entry) (h : ¬ q = p) :
    (fs.insert p e).lookup q = fs.lookup q := by
  have hpq : (p == q) = false := by
    simp; exact fun e => h e.symm
  simp [FS.insert, FS.lookup, List.find?, hpq, find?_filter_keyne _ _ _ h]

theorem splitLinesCh_ne_nil (l : List Char) : splitLinesCh l ≠ [] := by
  induction l with
  | nil => simp [splitLinesCh]
  | cons c rest ih =>
    simp only [splitLinesCh]
    split
    · simp
    · split <;> simp

theorem splitLinesCh_cons_newline (b : List Char) :
    splitLinesCh ('\n' :: b) = [] :: splitLinesCh b := by
  simp [splitLinesCh]

theorem splitLinesCh_append_no_nl (a b : List Char) (h : '\n' ∉ a) :
    splitLinesCh (a ++ b) = (splitLinesCh b).modifyHead (a ++ ·) := by
  induction a with
  | nil =>
    rcases hsb : splitLinesCh b with _ | ⟨m, ms⟩
    · exact absurd hsb (splitLinesCh_ne_nil b)
    · rw [List.nil_append, hsb]; simp [List.modifyHead]
  | cons c a ih =>
    have hc : ¬ (c = '\n') := by
      intro e; exact h (by simp [e])
    have ha : '\n' ∉ a := fun hm => h (List.mem_cons_of_mem _ hm)
    rw [List.cons_append]
    simp only [splitLinesCh, if_neg hc, ih ha]
    rcases hsb : splitLinesCh b with _ | ⟨m, ms⟩
    · exact absurd hsb (splitLinesCh_ne_nil b)
    · simp [List.modifyHead]

theorem splitLinesCh_line (a b : List Char) (h : '\n' ∉ a) :
    splitLinesCh (a ++ '\n' :: b) = a :: splitLinesCh b := by
  rw [splitLinesCh_append_no_nl a _ h, splitLinesCh_cons_newline]
  simp [List.modifyHead]

theorem trimCh_ws_append (w m : List Char)
    (hw : w.dropWhile Char.isWhitespace = [])
    (hm1 : m.dropWhile Char.isWhitespace = m)
    (hm2 : m.reverse.dropWhile Char.isWhitespace = m.reverse) :
    trimCh (w ++ m) = m := by
  unfold trimCh
  rw [List.dropWhile_append, hw]
  simp [hm1, hm2]

set_option maxRecDepth 8000 in
theorem renderSMBConf_data (stateDir : String) :
    (renderSMBConf (populatedDirectorySettings stateDir)).data =
      (confLinesRaw stateDir).flatMap (fun l => l ++ ['\n']) := by
  simp [renderSMBConf, renderBody, renderDescriptor, smbConfHeader,
    populatedDirectorySettings, directorySettings, filepathJoin, confLinesRaw,
    String.data_append, List.flatMap, List.append_assoc]

theorem splitLinesCh_flat (ls : List (List Char)) (h : ∀ l ∈ ls, '\n' ∉ l) :
    splitLinesCh (ls.flatMap (fun l => l ++ ['\n'])) = ls ++ [[]] := by
  induction ls with
  | nil => simp [splitLinesCh]
  | cons l rest ih =>
    rw [List.flatMap_cons, List.append_assoc, List.singleton_append]
    rw [splitLinesCh_line _ _ (h l (by simp))]
    simp [ih (fun x hx => h x (by simp [hx]))]

theorem no_nl_join (stateDir : String) (h1 : '\n' ∉ stateDir.data)
    (p : String) (hp : '\n' ∉ p.data) : '\n' ∉ (filepathJoin stateDir p).data := by
  unfold filepathJoin
  split
  · exact h1
  · simp only [String.data_append, List.mem_append]
    rintro ((hc | hc) | hc)
    · exact h1 hc
    · revert hc; decide
    · exact hp hc

theorem dirSettings_no_nl :
    ∀ d ∈ directorySettings, '\n' ∉ d.Setting.data ∧ '\n' ∉ d.path.data := by decide

theorem confLinesRaw_no_nl (stateDir : String) (h1 : '\n' ∉ stateDir.data) :
    ∀ l ∈ confLinesRaw stateDir, '\n' ∉ l := by
  intro l hl
  simp only [confLinesRaw, List.mem_append, List.mem_cons, List.mem_flatMap,
    List.mem_singleton, List.not_mem_nil, or_false] at hl
  rcases hl with ((rfl | rfl | rfl | rfl | rfl | rfl | rfl) | ⟨d, hd, hdl⟩) | rfl
  · decide
  · decide
  · decide
  · decide
  · decide
  · decide
  · decide
  · rcases hdl with rfl | rfl
    · decide
    · simp only [String.data_append, List.mem_append]
      rintro (hc | ((hc | hc) | hc))
      · revert hc; decide
      · exact (dirSettings_no_nl d hd).1 hc
      · revert hc; decide
      · exact no_nl_join stateDir h1 d.path (dirSettings_no_nl d hd).2 hc
  · decide

theorem exists_cons_of_headD {l : List Char} (h1 : l ≠ []) (h2 : (l.headD ' ').isWhitespace = false) :
    ∃ c cs, l = c :: cs ∧ c.isWhitespace = false := by
  cases l with
  | nil => exact absurd rfl h1
  | cons c cs => exact ⟨c, cs, rfl, by simpa using h2⟩

theorem dropWhile_cons_false {p : Char → Bool} {c : Char} (hc : p c = false) (l : List Char) :
    (c :: l).dropWhile p = c :: l := by
  rw [List.dropWhile_cons, hc]; simp

theorem trim_line_slash (stateDir S P : String)
    (hS : ∃ c cs, S.data = c :: cs ∧ c.isWhitespace = false)
    (hP : ∃ c cs, P.data.reverse = c :: cs ∧ c.isWhitespace = false) :
    trimCh (("        " : String).data ++ (S ++ " = " ++ (stateDir ++ "/" ++ P)).data)
      = (S ++ " = " ++ (stateDir ++ "/" ++ P)).data ∧
    ((S ++ " = " ++ (stateDir ++ "/" ++ P)).data).isEmpty = false := by
  obtain ⟨c, cs, hSd, hc⟩ := hS
  obtain ⟨b, bs, hPd, hb⟩ := hP
  refine ⟨trimCh_ws_append _ _ (by decide) ?_ ?_, ?_⟩
  · simp only [String.data_append, hSd, List.cons_append]
    exact dropWhile_cons_false hc _
  · simp only [String.data_append, List.reverse_append, List.reverse_cons,
      List.append_assoc, List.nil_append, List.cons_append, List.singleton_append,
      List.reverse_nil, hPd]
    exact dropWhile_cons_false hb _
  · simp [String.data_append, hSd]

theorem trim_line_base (stateDir S : String)
    (hS : ∃ c cs, S.data = c :: cs ∧ c.isWhitespace = false)
    (h2 : ∃ c cs, stateDir.data.reverse = c :: cs ∧ c.isWhitespace = false) :
    trimCh (("        " : String).data ++ (S ++ " = " ++ stateDir).data)
      = (S ++ " = " ++ stateDir).data ∧
    ((S ++ " = " ++ stateDir).data).isEmpty = false := by
  obtain ⟨c, cs, hSd, hc⟩ := hS
  obtain ⟨b, bs, hPd, hb⟩ := h2
  refine ⟨trimCh_ws_append _ _ (by decide) ?_ ?_, ?_⟩
  · simp only [String.data_append, hSd, List.cons_append]
    exact dropWhile_cons_false hc _
  · simp only [String.data_append, List.reverse_append, List.reverse_cons,
      List.append_assoc, List.nil_append, List.cons_append, List.singleton_append,
      List.reverse_nil, hPd]
    exact dropWhile_cons_false hb _
  · simp [String.data_append, hSd]

theorem trimmed_flat (stateDir : String) (ds : List directorySetting)
    (h : ∀ d ∈ ds,
      trimCh (("        " : String).data
          ++ (d.Setting ++ " = " ++ filepathJoin stateDir d.path).data)
        = (d.Setting ++ " = " ++ filepathJoin stateDir d.path).data ∧
      ((d.Setting ++ " = " ++ filepathJoin stateDir d.path).data).isEmpty = false) :
    (((ds.flatMap (fun d =>
        [("        " : String).data,
         ("        " : String).data
           ++ (d.Setting ++ " = " ++ filepathJoin stateDir d.path).data])).map
        trimCh).filter (fun l => !l.isEmpty))
      = ds.map (fun d => (d.Setting ++ " = " ++ filepathJoin stateDir d.path).data) := by
  induction ds with
  | nil => rfl
  | cons d rest ih =>
    rw [List.flatMap_cons]
    simp only [List.map_append, List.filter_append, List.map_cons, List.map_nil,
      List.filter_cons, List.filter_nil]
    have hspc : trimCh ("        " : String).data = [] := by decide
    rw [hspc, (h d (by simp)).1]
    simp only [List.isEmpty_nil, Bool.not_true, (h d (by simp)).2, Bool.not_false,
      if_true, if_false]
    rw [ih (fun x hx => h x (by simp [hx]))]
    simp


theorem St.emit_fs (st : St) (e : Event) : (st.emit e).fs = st.fs := rfl

theorem St.emit_trace (st : St) (e : Event) :
    (st.emit e).trace = st.trace ++ [e] := rfl

theorem ne_of_length_ne {a b : String} (h : a.length ≠ b.length) : a ≠ b :=
  fun e => h (congrArg String.length e)

theorem string_append_right_ne (a : String) {b c : String} (h : ¬ b = c) :
    ¬ (a ++ b = a ++ c) := by
  intro e
  apply h
  have hd := congrArg String.data e
  simp only [String.data_append] at hd
  exact string_ext (List.append_cancel_left hd)

theorem stateDir_ne_conf (sd : String) : ¬ (sd = filepathJoin sd "smb.conf") := by
  apply ne_of_length_ne
  have h1 : ("/" : String).length = 1 := rfl
  have h2 : ("smb.conf" : String).length = 8 := rfl
  simp [filepathJoin, String.length_append, h1, h2]
  omega

theorem conf_ne_dirs (sd : String) :
    ∀ d ∈ populatedDirectorySettings sd, ¬ (d.AbsolutePath = filepathJoin sd "smb.conf") := by
  intro d hd
  simp only [populatedDirectorySettings, List.mem_map] at hd
  obtain ⟨d0, hd0, rfl⟩ := hd
  fin_cases hd0
  · exact stateDir_ne_conf sd
  all_goals
    simp only [filepathJoin, if_false, reduceIte]
    exact string_append_right_ne _ (by decide)

theorem mkdirAllList_preserves (env : OSEnv) (ds : List directorySetting) :
    ∀ (st : St) (q : String) (e : Entry), st.fs.lookup q = some e →
      (mkdirAllList env st ds).2.fs.lookup q = some e := by
  induction ds with
  | nil => intro st q e h; exact h
  | cons d rest ih =>
    intro st q e h
    simp only [mkdirAllList, osMkdirAll]
    cases hm : env.mkdirErr d.AbsolutePath with
    | some m => simpa [St.emit] using h
    | none =>
      cases hl : (st.emit (Event.mkdirAll d.AbsolutePath d.perm)).fs.lookup d.AbsolutePath with
      | none =>
        simp only
        apply ih
        have hq : ¬ q = d.AbsolutePath := by
          intro e'; rw [e'] at h; rw [St.emit_fs] at hl; rw [h] at hl; cases hl
        simpa [St.emit, FS.lookup_insert_ne _ _ _ _ hq] using h
      | some entry =>
        cases entry with
        | dir pm => simp only; exact ih _ _ _ (by simpa [St.emit] using h)
        | file pm c => simpa [St.emit] using h

theorem mkdirAllList_trace_ext (env : OSEnv) (ds : List directorySetting) :
    ∀ st : St, ∃ t, (mkdirAllList env st ds).2.trace = st.trace ++ t := by
  induction ds with
  | nil => intro st; exact ⟨[], by simp [mkdirAllList]⟩
  | cons d rest ih =>
    intro st
    simp only [mkdirAllList, osMkdirAll]
    cases hm : env.mkdirErr d.AbsolutePath with
    | some m => exact ⟨[Event.mkdirAll d.AbsolutePath d.perm], by simp [St.emit]⟩
    | none =>
      cases hl : (st.emit (Event.mkdirAll d.AbsolutePath d.perm)).fs.lookup d.AbsolutePath with
      | none =>
        obtain ⟨t, ht⟩ := ih ({ st.emit (Event.mkdirAll d.AbsolutePath d.perm) with
          fs := (st.emit (Event.mkdirAll d.AbsolutePath d.perm)).fs.insert d.AbsolutePath
            (Entry.dir d.perm) })
        exact ⟨Event.mkdirAll d.AbsolutePath d.perm :: t, by
          simp only at ht ⊢; rw [ht]; simp [St.emit]⟩
      | some entry =>
        cases entry with
        | dir pm =>
          obtain ⟨t, ht⟩ := ih (st.emit (Event.mkdirAll d.AbsolutePath d.perm))
          exact ⟨Event.mkdirAll d.AbsolutePath d.perm :: t, by
            simp only at ht ⊢; rw [ht]; simp [St.emit]⟩
        | file pm c => exact ⟨[Event.mkdirAll d.AbsolutePath d.perm], by simp [St.emit]⟩

theorem mkdirAllList_ok (env : OSEnv) (ds : List directorySetting)
    (henv : ∀ d ∈ ds, env.mkdirErr d.AbsolutePath = none)
    (hperm : ∀ d ∈ ds, d.perm = 0o755) :
    ∀ st : St,
    (∀ d ∈ ds, st.fs.lookup d.AbsolutePath = none ∨
      st.fs.lookup d.AbsolutePath = some (.dir 0o755)) →
    (mkdirAllList env st ds).1 = none ∧
    (mkdirAllList env st ds).2.trace =
      st.trace ++ ds.map (fun d => Event.mkdirAll d.AbsolutePath d.perm) ∧
    (∀ d ∈ ds, (mkdirAllList env st ds).2.fs.lookup d.AbsolutePath = some (.dir 0o755)) ∧
    (∀ q e, st.fs.lookup q = some e → (mkdirAllList env st ds).2.fs.lookup q = some e) := by
  induction ds with
  | nil =>
    intro st _
    refine ⟨rfl, by simp [mkdirAllList], by simp, fun q e h => h⟩
  | cons d rest ih =>
    intro st hfs
    have hmd : env.mkdirErr d.AbsolutePath = none := henv d (by simp)
    have hpd : d.perm = 0o755 := hperm d (by simp)
    have henv' : ∀ x ∈ rest, env.mkdirErr x.AbsolutePath = none :=
      fun x hx => henv x (by simp [hx])
    have hperm' : ∀ x ∈ rest, x.perm = 0o755 := fun x hx => hperm x (by simp [hx])
    rcases hfs d (by simp) with hnone | hdir
    · -- fresh path: directory is created
      set st1 : St :=
        ⟨st.fs.insert d.AbsolutePath (Entry.dir d.perm),
         st.trace ++ [Event.mkdirAll d.AbsolutePath d.perm]⟩ with hst1
      have hstep : mkdirAllList env st (d :: rest) = mkdirAllList env st1 rest := by
        rw [hst1]
        simp [mkdirAllList, osMkdirAll, hmd, St.emit, hnone]
      have hfs1 : ∀ x ∈ rest, st1.fs.lookup x.AbsolutePath = none ∨
          st1.fs.lookup x.AbsolutePath = some (.dir 0o755) := by
        intro x hx
        by_cases hxd : x.AbsolutePath = d.AbsolutePath
        · right
          rw [hst1]; simp only [hxd]
          rw [FS.lookup_insert_self, hpd]
        · rcases hfs x (by simp [hx]) with h1 | h1
          · left; rw [hst1]; simpa [FS.lookup_insert_ne _ _ _ _ hxd] using h1
          · right; rw [hst1]; simpa [FS.lookup_insert_ne _ _ _ _ hxd] using h1
      obtain ⟨ih1, ih2, ih3, ih4⟩ := ih henv' hperm' st1 hfs1
      refine ⟨by rw [hstep]; exact ih1, ?_, ?_, ?_⟩
      · rw [hstep, ih2, hst1]; simp
      · intro x hx
        rcases List.mem_cons.mp hx with rfl | hx'
        · rw [hstep]
          apply ih4
          rw [hst1]; simp only
          rw [FS.lookup_insert_self, hpd]
        · rw [hstep]; exact ih3 x hx'
      · intro q e h
        rw [hstep]
        apply ih4
        have hq : ¬ q = d.AbsolutePath := by
          intro e'; rw [e'] at h; rw [h] at hnone; cases hnone
        rw [hst1]; simpa [FS.lookup_insert_ne _ _ _ _ hq] using h
    · -- directory already exists: no-op step
      set st1 : St := ⟨st.fs, st.trace ++ [Event.mkdirAll d.AbsolutePath d.perm]⟩ with hst1
      have hstep : mkdirAllList env st (d :: rest) = mkdirAllList env st1 rest := by
        rw [hst1]
        simp [mkdirAllList, osMkdirAll, hmd, St.emit, hdir]
      have hfs1 : ∀ x ∈ rest, st1.fs.lookup x.AbsolutePath = none ∨
          st1.fs.lookup x.AbsolutePath = some (.dir 0o755) := by
        intro x hx
        rcases hfs x (by simp [hx]) with h1 | h1
        · left; exact h1
        · right; exact h1
      obtain ⟨ih1, ih2, ih3, ih4⟩ := ih henv' hperm' st1 hfs1
      refine ⟨by rw [hstep]; exact ih1, ?_, ?_, ?_⟩
      · rw [hstep, ih2, hst1]; simp
      · intro x hx
        rcases List.mem_cons.mp hx with rfl | hx'
        · rw [hstep]; exact ih4 _ _ hdir
        · rw [hstep]; exact ih3 x hx'
      · intro q e h
        rw [hstep]
        exact ih4 _ _ h

theorem mkdirAllList_fail (env : OSEnv) (ds : List directorySetting)
    (hperm : ∀ d ∈ ds, d.perm = 0o755) :
    ∀ (st : St) (p m : String),
    (∀ d ∈ ds, st.fs.lookup d.AbsolutePath = none ∨
      st.fs.lookup d.AbsolutePath = some (.dir 0o755)) →
    (mkdirAllList env st ds).1 = some (p, m) →
    (∃ d ∈ ds, d.AbsolutePath = p) ∧ env.mkdirErr p = some m := by
  induction ds with
  | nil => intro st p m _ h; cases h
  | cons d rest ih =>
    intro st p m hfs hres
    cases hm : env.mkdirErr d.AbsolutePath with
    | some m' =>
      have hthis : (mkdirAllList env st (d :: rest)).1 = some (d.AbsolutePath, m') := by
        simp [mkdirAllList, osMkdirAll, hm]
      rw [hthis] at hres
      have h' : d.AbsolutePath = p ∧ m' = m := by
        have := Option.some.inj hres
        exact ⟨congrArg Prod.fst this, congrArg Prod.snd this⟩
      refine ⟨⟨d, by simp, h'.1⟩, ?_⟩
      rw [← h'.1, hm, h'.2]
    | none =>
      rcases hfs d (by simp) with hnone | hdir
      · have hstep : mkdirAllList env st (d :: rest) =
            mkdirAllList env
              ⟨st.fs.insert d.AbsolutePath (Entry.dir d.perm),
               st.trace ++ [Event.mkdirAll d.AbsolutePath d.perm]⟩ rest := by
          simp [mkdirAllList, osMkdirAll, hm, St.emit, hnone]
        rw [hstep] at hres
        have hfs1 : ∀ x ∈ rest,
            (⟨st.fs.insert d.AbsolutePath (Entry.dir d.perm),
              st.trace ++ [Event.mkdirAll d.AbsolutePath d.perm]⟩ : St).fs.lookup
                x.AbsolutePath = none ∨
            (⟨st.fs.insert d.AbsolutePath (Entry.dir d.perm),
              st.trace ++ [Event.mkdirAll d.AbsolutePath d.perm]⟩ : St).fs.lookup
                x.AbsolutePath = some (.dir 0o755) := by
          intro x hx
          by_cases hxd : x.AbsolutePath = d.AbsolutePath
          · right
            simp only [hxd]
            rw [FS.lookup_insert_self, hperm d (by simp)]
          · rcases hfs x (by simp [hx]) with h1 | h1
            · left; simpa [FS.lookup_insert_ne _ _ _ _ hxd] using h1
            · right; simpa [FS.lookup_insert_ne _ _ _ _ hxd] using h1
        obtain ⟨⟨d', hd', hd'p⟩, he⟩ := ih (fun x hx => hperm x (by simp [hx])) _ p m hfs1 hres
        exact ⟨⟨d', by simp [hd'], hd'p⟩, he⟩
      · have hstep : mkdirAllList env st (d :: rest) =
            mkdirAllList env ⟨st.fs, st.trace ++ [Event.mkdirAll d.AbsolutePath d.perm]⟩
              rest := by
          simp [mkdirAllList, osMkdirAll, hm, St.emit, hdir]
        rw [hstep] at hres
        have hfs1 : ∀ x ∈ rest,
            (⟨st.fs, st.trace ++ [Event.mkdirAll d.AbsolutePath d.perm]⟩ : St).fs.lookup
                x.AbsolutePath = none ∨
            (⟨st.fs, st.trace ++ [Event.mkdirAll d.AbsolutePath d.perm]⟩ : St).fs.lookup
                x.AbsolutePath = some (.dir 0o755) := by
          intro x hx
          exact hfs x (by simp [hx])
        obtain ⟨⟨d', hd', hd'p⟩, he⟩ := ih (fun x hx => hperm x (by simp [hx])) _ p m hfs1 hres
        exact ⟨⟨d', by simp [hd'], hd'p⟩, he⟩

theorem mkdirAllList_succ_inv (env : OSEnv) (ds : List directorySetting) :
    ∀ st : St, (mkdirAllList env st ds).1 = none →
      ∀ d ∈ ds, env.mkdirErr d.AbsolutePath = none := by
  induction ds with
  | nil => intro st _ d hd; cases hd
  | cons d rest ih =>
    intro st hres x hx
    cases hm : env.mkdirErr d.AbsolutePath with
    | some m =>
      have : (mkdirAllList env st (d :: rest)).1 = some (d.AbsolutePath, m) := by
        simp [mkdirAllList, osMkdirAll, hm]
      rw [this] at hres; cases hres
    | none =>
      rcases List.mem_cons.mp hx with rfl | hx'
      · exact hm
      · cases hl : st.fs.lookup d.AbsolutePath with
        | none =>
          have hstep : mkdirAllList env st (d :: rest) =
              mkdirAllList env
                ⟨st.fs.insert d.AbsolutePath (Entry.dir d.perm),
                 st.trace ++ [Event.mkdirAll d.AbsolutePath d.perm]⟩ rest := by
            simp [mkdirAllList, osMkdirAll, hm, St.emit, hl]
          rw [hstep] at hres
          exact ih _ hres x hx'
        | some entry =>
          cases entry with
          | dir pm =>
            have hstep : mkdirAllList env st (d :: rest) =
                mkdirAllList env
                  ⟨st.fs, st.trace ++ [Event.mkdirAll d.AbsolutePath d.perm]⟩ rest := by
              simp [mkdirAllList, osMkdirAll, hm, St.emit, hl]
            rw [hstep] at hres
            exact ih _ hres x hx'
          | file pm c =>
            have : (mkdirAllList env st (d :: rest)).1 =
                some (d.AbsolutePath, "not a directory") := by
              simp [mkdirAllList, osMkdirAll, hm, St.emit, hl]
            rw [this] at hres; cases hres

theorem dirSettings_perm : ∀ d ∈ directorySettings, d.perm = 0o755 := by decide

theorem pds_perm (sd : String) :
    ∀ d ∈ populatedDirectorySettings sd, d.perm = 0o755 := by
  intro d hd
  simp only [populatedDirectorySettings, List.mem_map] at hd
  obtain ⟨d0, hd0, rfl⟩ := hd
  exact dirSettings_perm d0 hd0

theorem initSMBConf_skip (env : OSEnv) (s : Server) (st : St) (e : Entry)
    (hstat : env.statErr s.smbConfPath = none)
    (hex : st.fs.lookup s.smbConfPath = some e) :
    s.initSMBConfIfNecessary env st = (.ok (), st.emit (.stat s.smbConfPath)) := by
  simp [Server.initSMBConfIfNecessary, osStat, hstat, St.emit_fs, hex, St.emit]

theorem initSMBConf_statfail (env : OSEnv) (s : Server) (st : St) (m : String)
    (h : env.statErr s.smbConfPath = some m) :
    s.initSMBConfIfNecessary env st =
      (.error ("check " ++ s.smbConfPath ++ " exists: " ++ m),
        st.emit (.stat s.smbConfPath)) := by
  simp [Server.initSMBConfIfNecessary, osStat, h, St.emit]

theorem initSMBConf_fresh_step (env : OSEnv) (s : Server) (st : St)
    (hstat : env.statErr s.smbConfPath = none)
    (habs : st.fs.lookup s.smbConfPath = none)
    (hopen : env.openErr s.smbConfPath = none) :
    s.initSMBConfIfNecessary env st =
      (match mkdirAllList env
          ⟨st.fs.insert s.smbConfPath (Entry.file 0o644 ""),
           st.trace ++ [Event.stat s.smbConfPath,
             Event.openFileCreate s.smbConfPath 0o644]⟩
          (populatedDirectorySettings s.opts.StateDir) with
       | (some pm, st') => (Except.error ("create " ++ pm.1 ++ ": " ++ pm.2), st')
       | (none, st') =>
         (Except.ok (), (st'.emit (Event.templateExecute s.smbConfPath)).writeFile
           s.smbConfPath (renderSMBConf (populatedDirectorySettings s.opts.StateDir)))) := by
  simp only [Server.initSMBConfIfNecessary, osStat, osOpenFileCreate, hstat, hopen,
    St.emit_fs, habs, St.emit]
  simp only [List.append_assoc, List.singleton_append, List.cons_append, List.nil_append]
  rcases hmk : mkdirAllList env
      ⟨st.fs.insert s.smbConfPath (Entry.file 0o644 ""),
       st.trace ++ [Event.stat s.smbConfPath, Event.openFileCreate s.smbConfPath 0o644]⟩
      (populatedDirectorySettings s.opts.StateDir) with ⟨res, st'⟩
  cases res with
  | none => simp
  | some pm => rcases pm with ⟨p, m⟩; simp

theorem initSMBConf_fresh (env : OSEnv) (s : Server) (st : St)
    (hstat : env.statErr s.smbConfPath = none)
    (habs : st.fs.lookup s.smbConfPath = none)
    (hopen : env.openErr s.smbConfPath = none)
    (hne : ∀ d ∈ populatedDirectorySettings s.opts.StateDir,
      ¬ d.AbsolutePath = s.smbConfPath)
    (hfs : ∀ d ∈ populatedDirectorySettings s.opts.StateDir,
      st.fs.lookup d.AbsolutePath = none ∨
      st.fs.lookup d.AbsolutePath = some (.dir 0o755)) :
    ((s.initSMBConfIfNecessary env st).1 = .ok () ↔
      ∀ d ∈ populatedDirectorySettings s.opts.StateDir,
        env.mkdirErr d.AbsolutePath = none) ∧
    (∀ e, (s.initSMBConfIfNecessary env st).1 = Except.error e →
      (∃ d ∈ populatedDirectorySettings s.opts.StateDir, ∃ m,
        env.mkdirErr d.AbsolutePath = some m ∧
        e = "create " ++ d.AbsolutePath ++ ": " ++ m) ∧
      (s.initSMBConfIfNecessary env st).2.fs.lookup s.smbConfPath =
        some (.file 0o644 "")) ∧
    ((s.initSMBConfIfNecessary env st).1 = .ok () →
      (s.initSMBConfIfNecessary env st).2.trace =
        st.trace ++ [Event.stat s.smbConfPath,
          Event.openFileCreate s.smbConfPath 0o644] ++
        (populatedDirectorySettings s.opts.StateDir).map
          (fun d => Event.mkdirAll d.AbsolutePath d.perm) ++
        [Event.templateExecute s.smbConfPath] ∧
      (s.initSMBConfIfNecessary env st).2.fs.lookup s.smbConfPath =
        some (.file 0o644
          (renderSMBConf (populatedDirectorySettings s.opts.StateDir))) ∧
      ∀ d ∈ populatedDirectorySettings s.opts.StateDir,
        (s.initSMBConfIfNecessary env st).2.fs.lookup d.AbsolutePath =
          some (.dir 0o755)) := by
  have hshape := initSMBConf_fresh_step env s st hstat habs hopen
  set st2 : St := ⟨st.fs.insert s.smbConfPath (Entry.file 0o644 ""),
    st.trace ++ [Event.stat s.smbConfPath, Event.openFileCreate s.smbConfPath 0o644]⟩
    with hst2
  have hfs2 : ∀ d ∈ populatedDirectorySettings s.opts.StateDir,
      st2.fs.lookup d.AbsolutePath = none ∨
      st2.fs.lookup d.AbsolutePath = some (.dir 0o755) := by
    intro d hd
    rcases hfs d hd with h1 | h1
    · left; rw [hst2]; simpa [FS.lookup_insert_ne _ _ _ _ (hne d hd)] using h1
    · right; rw [hst2]; simpa [FS.lookup_insert_ne _ _ _ _ (hne d hd)] using h1
  have hconf2 : st2.fs.lookup s.smbConfPath = some (.file 0o644 "") := by
    rw [hst2]; exact FS.lookup_insert_self _ _ _
  rcases hmk : mkdirAllList env st2 (populatedDirectorySettings s.opts.StateDir)
    with ⟨res, st'⟩
  cases res with
  | some pm =>
    rcases pm with ⟨p, m⟩
    have heq : s.initSMBConfIfNecessary env st =
        (Except.error ("create " ++ p ++ ": " ++ m), st') := by
      rw [hshape, hmk]
    refine ⟨?_, ?_, ?_⟩
    · constructor
      · intro h; rw [heq] at h; cases h
      · intro hall
        obtain ⟨h1, _, _, _⟩ := mkdirAllList_ok env _ hall (pds_perm _) st2 hfs2
        rw [hmk] at h1; cases h1
    · intro e he
      rw [heq] at he
      have he' : ("create " ++ p ++ ": " ++ m) = e := by
        have := congrArg (fun x => match x with | Except.error y => y | _ => "") he
        simpa using this
      have hfail := mkdirAllList_fail env _ (pds_perm _) st2 p m hfs2 (by rw [hmk])
      obtain ⟨⟨d, hd, hdp⟩, henvp⟩ := hfail
      refine ⟨⟨d, hd, m, by rw [hdp]; exact henvp, by rw [← he', hdp]⟩, ?_⟩
      rw [heq]
      have := mkdirAllList_preserves env (populatedDirectorySettings s.opts.StateDir)
        st2 s.smbConfPath _ hconf2
      rw [hmk] at this
      exact this
    · intro h; rw [heq] at h; cases h
  | none =>
    have henv : ∀ d ∈ populatedDirectorySettings s.opts.StateDir,
        env.mkdirErr d.AbsolutePath = none :=
      mkdirAllList_succ_inv env _ st2 (by rw [hmk]) 
    obtain ⟨_, htr, hdirs, hpres⟩ := mkdirAllList_ok env _ henv (pds_perm _) st2 hfs2
    rw [hmk] at htr hdirs hpres
    have hconf' : st'.fs.lookup s.smbConfPath = some (.file 0o644 "") := hpres _ _ hconf2
    have heq : s.initSMBConfIfNecessary env st =
        (Except.ok (), (st'.emit (Event.templateExecute s.smbConfPath)).writeFile
          s.smbConfPath
          (renderSMBConf (populatedDirectorySettings s.opts.StateDir))) := by
      rw [hshape, hmk]
    have hwf : ((st'.emit (Event.templateExecute s.smbConfPath)).writeFile
        s.smbConfPath
        (renderSMBConf (populatedDirectorySettings s.opts.StateDir))) =
        ⟨st'.fs.insert s.smbConfPath (Entry.file 0o644
            (renderSMBConf (populatedDirectorySettings s.opts.StateDir))),
         st'.trace ++ [Event.templateExecute s.smbConfPath]⟩ := by
      simp [St.writeFile, St.emit, hconf']
    refine ⟨?_, ?_, ?_⟩
    · exact ⟨fun _ => henv, fun _ => by rw [heq]⟩
    · intro e he; rw [heq] at he; cases he
    · intro _
      rw [heq, hwf]
      refine ⟨?_, ?_, ?_⟩
      · simp only
        rw [htr, hst2]
      · simp only
        exact FS.lookup_insert_self _ _ _
      · intro d hd
        simp only
        rw [FS.lookup_insert_ne _ _ _ _ (hne d hd)]
        exact hdirs d hd

theorem start_ok (env : OSEnv) (s : Server) (st : St) (p : Nat)
    (hl : env.listen = .ok p)
    (h1 : env.stdoutPipeErr = none)
    (h2 : env.stderrPipeErr = none) :
    Server.start env s st =
      (.ok ⟨s.opts, s.smbConfPath, s.opts.SMBDCommand,
        ["--configfile=" ++ s.smbConfPath, "--port=" ++ toString p,
          "--foreground", "--no-process-group", "--debug-stdout"], p⟩,
       ⟨st.fs, st.trace ++ [Event.listen "127.0.0.1:0", Event.closeListener,
         Event.command s.opts.SMBDCommand
           ["--configfile=" ++ s.smbConfPath, "--port=" ++ toString p,
            "--foreground", "--no-process-group", "--debug-stdout"],
         Event.stdoutPipe, Event.stderrPipe, Event.goRelayStdout,
         Event.goRelayStderr, Event.goSupervisor]⟩) := by
  simp [Server.start, hl, h1, h2, St.emit]

theorem start_listen_fail (env : OSEnv) (s : Server) (st : St) (m : String)
    (hl : env.listen = .error m) :
    Server.start env s st =
      (.error ("listen: " ++ m), st.emit (Event.listen "127.0.0.1:0")) := by
  simp [Server.start, hl, St.emit]

theorem start_fs (env : OSEnv) (s : Server) (st : St) :
    (Server.start env s st).2.fs = st.fs := by
  cases hl : env.listen with
  | error m => simp [Server.start, hl, St.emit]
  | ok p =>
    cases h1 : env.stdoutPipeErr with
    | some m => simp [Server.start, hl, h1, St.emit]
    | none =>
      cases h2 : env.stderrPipeErr with
      | some m => simp [Server.start, hl, h1, h2, St.emit]
      | none => simp [Server.start, hl, h1, h2, St.emit]

theorem start_trace_ext (env : OSEnv) (s : Server) (st : St) :
    ∃ t, (Server.start env s st).2.trace = st.trace ++ t := by
  cases hl : env.listen with
  | error m =>
    exact ⟨[Event.listen "127.0.0.1:0"], by simp [Server.start, hl, St.emit]⟩
  | ok p =>
    cases h1 : env.stdoutPipeErr with
    | some m =>
      refine ⟨[Event.listen "127.0.0.1:0", Event.closeListener,
        Event.command s.opts.SMBDCommand
          ["--configfile=" ++ s.smbConfPath, "--port=" ++ toString p, "--foreground",
            "--no-process-group", "--debug-stdout"],
        Event.stdoutPipe], ?_⟩
      simp [Server.start, hl, h1, St.emit]
    | none =>
      cases h2 : env.stderrPipeErr with
      | some m =>
        refine ⟨[Event.listen "127.0.0.1:0", Event.closeListener,
          Event.command s.opts.SMBDCommand
            ["--configfile=" ++ s.smbConfPath, "--port=" ++ toString p, "--foreground",
              "--no-process-group", "--debug-stdout"],
          Event.stdoutPipe, Event.stderrPipe], ?_⟩
        simp [Server.start, hl, h1, h2, St.emit]
      | none =>
        refine ⟨[Event.listen "127.0.0.1:0", Event.closeListener,
          Event.command s.opts.SMBDCommand
            ["--configfile=" ++ s.smbConfPath, "--port=" ++ toString p, "--foreground",
              "--no-process-group", "--debug-stdout"],
          Event.stdoutPipe, Event.stderrPipe, Event.goRelayStdout,
          Event.goRelayStderr, Event.goSupervisor], ?_⟩
        simp [Server.start, hl, h1, h2, St.emit]

theorem initSMBConf_trace_ext (env : OSEnv) (s : Server) (st : St) :
    ∃ t, (s.initSMBConfIfNecessary env st).2.trace = st.trace ++ t := by
  cases hstat : env.statErr s.smbConfPath with
  | some m =>
    exact ⟨[Event.stat s.smbConfPath],
      by rw [initSMBConf_statfail env s st m hstat]; rfl⟩
  | none =>
    cases hex : st.fs.lookup s.smbConfPath with
    | some e =>
      exact ⟨[Event.stat s.smbConfPath],
        by rw [initSMBConf_skip env s st e hstat hex]; rfl⟩
    | none =>
      cases hopen : env.openErr s.smbConfPath with
      | some m =>
        refine ⟨[Event.stat s.smbConfPath, Event.openFileCreate s.smbConfPath 0o644], ?_⟩
        simp [Server.initSMBConfIfNecessary, osStat, osOpenFileCreate, hstat, hex,
          hopen, St.emit]
      | none =>
        rw [initSMBConf_fresh_step env s st hstat hex hopen]
        rcases hmk : mkdirAllList env
            ⟨st.fs.insert s.smbConfPath (Entry.file 0o644 ""),
             st.trace ++ [Event.stat s.smbConfPath,
               Event.openFileCreate s.smbConfPath 0o644]⟩
            (populatedDirectorySettings s.opts.StateDir) with ⟨res, st'⟩
        obtain ⟨t, ht⟩ := mkdirAllList_trace_ext env
          (populatedDirectorySettings s.opts.StateDir)
          ⟨st.fs.insert s.smbConfPath (Entry.file 0o644 ""),
           st.trace ++ [Event.stat s.smbConfPath,
             Event.openFileCreate s.smbConfPath 0o644]⟩
        rw [hmk] at ht
        cases res with
        | some pm =>
          refine ⟨[Event.stat s.smbConfPath, Event.openFileCreate s.smbConfPath 0o644]
            ++ t, ?_⟩
          simp only at ht
          simp [ht, St.writeFile, St.emit]
        | none =>
          refine ⟨[Event.stat s.smbConfPath, Event.openFileCreate s.smbConfPath 0o644]
            ++ t ++ [Event.templateExecute s.smbConfPath], ?_⟩
          simp only at ht
          have hwt : ∀ u : St, (u.writeFile s.smbConfPath
              (renderSMBConf (populatedDirectorySettings s.opts.StateDir))).trace
                = u.trace := by
            intro u
            unfold St.writeFile
            cases hu : u.fs.lookup s.smbConfPath with
            | none => rfl
            | some e => cases e <;> rfl
          simp [hwt, St.emit, ht]

abbrev serverFor (opts : Opts) : Server :=
  { opts := opts, smbConfPath := filepathJoin opts.StateDir "smb.conf" }

theorem Start_shape (env : OSEnv) (opts : Opts) (st : St) :
    Start env opts st =
      match osMkdirAll env st opts.StateDir 0o755 with
      | (some m, st1) => (.error ("create state directory: " ++ m), st1)
      | (none, st1) =>
        match (serverFor opts).initSMBConfIfNecessary env st1 with
        | (.error m, st2) => (.error ("init smb.conf: " ++ m), st2)
        | (.ok _, st2) =>
          match Server.start env (serverFor opts) st2 with
          | (.error m, st3) => (.error ("start: " ++ m), st3)
          | (.ok s', st3) => (.ok s', st3)
      := by
  rcases hm : osMkdirAll env st opts.StateDir 0o755 with ⟨r1, st1⟩
  cases r1 with
  | some m => simp [Start, serverFor, hm]
  | none =>
    rcases hi : (serverFor opts).initSMBConfIfNecessary env st1 with ⟨ri, st2⟩
    cases ri with
    | error m => simp [Start, serverFor, hm, hi]
    | ok u =>
      cases u
      rcases hs : Server.start env (serverFor opts) st2 with ⟨rs, st3⟩
      cases rs <;> simp [Start, serverFor, hm, hi, hs]

theorem osMkdirAll_trace (env : OSEnv) (st : St) (p : String) (perm : Nat) :
    (osMkdirAll env st p perm).2.trace = st.trace ++ [Event.mkdirAll p perm] := by
  simp only [osMkdirAll, St.emit]
  cases hm : env.mkdirErr p with
  | some m => rfl
  | none =>
    cases hl : st.fs.lookup p with
    | none => simp [hl]
    | some e => cases e <;> simp [hl]

theorem Start_trace_first (env : OSEnv) (opts : Opts) (st : St) :
    ∃ rest, (Start env opts st).2.trace =
      st.trace ++ Event.mkdirAll opts.StateDir 0o755 :: rest := by
  rw [Start_shape]
  rcases hm : osMkdirAll env st opts.StateDir 0o755 with ⟨r1, st1⟩
  have htr1 : st1.trace = st.trace ++ [Event.mkdirAll opts.StateDir 0o755] := by
    have h := osMkdirAll_trace env st opts.StateDir 0o755
    rw [hm] at h
    exact h
  cases r1 with
  | some m => exact ⟨[], by simpa using htr1⟩
  | none =>
    rcases hi : (serverFor opts).initSMBConfIfNecessary env st1 with ⟨ri, st2⟩
    obtain ⟨t, ht⟩ := initSMBConf_trace_ext env (serverFor opts) st1
    rw [hi] at ht
    simp only at ht
    cases ri with
    | error m =>
      refine ⟨t, ?_⟩
      simp only [hi]
      rw [ht, htr1]
      simp
    | ok u =>
      cases u
      rcases hs : Server.start env (serverFor opts) st2 with ⟨rs, st3⟩
      obtain ⟨t2, ht2⟩ := start_trace_ext env (serverFor opts) st2
      rw [hs] at ht2
      simp only at ht2
      cases rs with
      | error m =>
        refine ⟨t ++ t2, ?_⟩
        simp only [hi, hs]
        rw [ht2, ht, htr1]
        simp
      | ok s' =>
        refine ⟨t ++ t2, ?_⟩
        simp only [hi, hs]
        rw [ht2, ht, htr1]
        simp

theorem Start_skip_fs (env : OSEnv) (opts : Opts) (st : St) (pm : Nat) (c : String)
    (hmk : env.mkdirErr opts.StateDir = none)
    (hsd : st.fs.lookup opts.StateDir = none)
    (hstat : env.statErr (filepathJoin opts.StateDir "smb.conf") = none)
    (hex : st.fs.lookup (filepathJoin opts.StateDir "smb.conf") = some (.file pm c)) :
    (Start env opts st).2.fs.lookup opts.StateDir = some (.dir 0o755) ∧
    (Start env opts st).2.fs.lookup (filepathJoin opts.StateDir "smb.conf") =
      some (.file pm c) ∧
    (Start env opts st).2.trace =
      st.trace ++ Event.mkdirAll opts.StateDir 0o755 ::
        Event.stat (filepathJoin opts.StateDir "smb.conf") ::
        ((Start env opts st).2.trace.drop (st.trace.length + 2)) := by
  have hstep : osMkdirAll env st opts.StateDir 0o755 =
      (none, ⟨st.fs.insert opts.StateDir (Entry.dir 0o755),
        st.trace ++ [Event.mkdirAll opts.StateDir 0o755]⟩) := by
    simp [osMkdirAll, hmk, hsd, St.emit]
  have hc1 : (⟨st.fs.insert opts.StateDir (Entry.dir 0o755),
      st.trace ++ [Event.mkdirAll opts.StateDir 0o755]⟩ : St).fs.lookup
        (filepathJoin opts.StateDir "smb.conf") = some (.file pm c) := by
    simp only
    rw [FS.lookup_insert_ne _ _ _ _ (fun e => stateDir_ne_conf opts.StateDir e.symm)]
    exact hex
  have hskip := initSMBConf_skip env (serverFor opts)
    ⟨st.fs.insert opts.StateDir (Entry.dir 0o755),
     st.trace ++ [Event.mkdirAll opts.StateDir 0o755]⟩ (.file pm c) hstat hc1
  rw [Start_shape, hstep]
  simp only [hskip]
  rcases hs : Server.start env (serverFor opts)
    ((⟨st.fs.insert opts.StateDir (Entry.dir 0o755),
      st.trace ++ [Event.mkdirAll opts.StateDir 0o755]⟩ : St).emit
        (Event.stat (serverFor opts).smbConfPath)) with ⟨rs, st3⟩
  have hfs3 := start_fs env (serverFor opts)
    ((⟨st.fs.insert opts.StateDir (Entry.dir 0o755),
      st.trace ++ [Event.mkdirAll opts.StateDir 0o755]⟩ : St).emit
        (Event.stat (serverFor opts).smbConfPath))
  rw [hs] at hfs3
  obtain ⟨t2, ht2⟩ := start_trace_ext env (serverFor opts)
    ((⟨st.fs.insert opts.StateDir (Entry.dir 0o755),
      st.trace ++ [Event.mkdirAll opts.StateDir 0o755]⟩ : St).emit
        (Event.stat (serverFor opts).smbConfPath))
  rw [hs] at ht2
  have htr3 : st3.trace = st.trace ++ Event.mkdirAll opts.StateDir 0o755 ::
      Event.stat (filepathJoin opts.StateDir "smb.conf") :: t2 := by
    rw [ht2]
    simp [St.emit, serverFor]
  have hdrop : st3.trace.drop (st.trace.length + 2) = t2 := by
    rw [htr3]
    rw [show st.trace.length + 2 = (st.trace ++ [Event.mkdirAll opts.StateDir 0o755,
      Event.stat (filepathJoin opts.StateDir "smb.conf")]).length by simp]
    rw [show st.trace ++ Event.mkdirAll opts.StateDir 0o755 ::
      Event.stat (filepathJoin opts.StateDir "smb.conf") :: t2 =
      (st.trace ++ [Event.mkdirAll opts.StateDir 0o755,
        Event.stat (filepathJoin opts.StateDir "smb.conf")]) ++ t2 by simp]
    rw [List.drop_left]
  cases rs with
  | error m =>
    simp only [hs]
    refine ⟨?_, ?_, ?_⟩
    · rw [hfs3, St.emit_fs]
      exact FS.lookup_insert_self _ _ _
    · rw [hfs3, St.emit_fs]
      exact hc1
    · rw [hdrop, htr3]
  | ok s' =>
    simp only [hs]
    refine ⟨?_, ?_, ?_⟩
    · rw [hfs3, St.emit_fs]
      exact FS.lookup_insert_self _ _ _
    · rw [hfs3, St.emit_fs]
      exact hc1
    · rw [hdrop, htr3]

theorem Start_fresh_ok (env : OSEnv) (opts : Opts) (st : St) (p : Nat)
    (hmk : env.mkdirErr opts.StateDir = none)
    (hsd : st.fs.lookup opts.StateDir = none)
    (hstat : env.statErr (filepathJoin opts.StateDir "smb.conf") = none)
    (habs : st.fs.lookup (filepathJoin opts.StateDir "smb.conf") = none)
    (hopen : env.openErr (filepathJoin opts.StateDir "smb.conf") = none)
    (henv : ∀ d ∈ populatedDirectorySettings opts.StateDir,
      env.mkdirErr d.AbsolutePath = none)
    (hfs : ∀ d ∈ populatedDirectorySettings opts.StateDir,
      st.fs.lookup d.AbsolutePath = none ∨
      st.fs.lookup d.AbsolutePath = some (.dir 0o755))
    (hl : env.listen = .ok p)
    (h1 : env.stdoutPipeErr = none)
    (h2 : env.stderrPipeErr = none) :
    (Start env opts st).1 =
      .ok ⟨opts, filepathJoin opts.StateDir "smb.conf", opts.SMBDCommand,
        ["--configfile=" ++ filepathJoin opts.StateDir "smb.conf",
         "--port=" ++ toString p, "--foreground", "--no-process-group",
         "--debug-stdout"], p⟩ ∧
    (Start env opts st).2.fs.lookup (filepathJoin opts.StateDir "smb.conf") =
      some (.file 0o644 (renderSMBConf (populatedDirectorySettings opts.StateDir))) ∧
    (∀ d ∈ populatedDirectorySettings opts.StateDir,
      (Start env opts st).2.fs.lookup d.AbsolutePath = some (.dir 0o755)) := by
  have hstep : osMkdirAll env st opts.StateDir 0o755 =
      (none, ⟨st.fs.insert opts.StateDir (Entry.dir 0o755),
        st.trace ++ [Event.mkdirAll opts.StateDir 0o755]⟩) := by
    simp [osMkdirAll, hmk, hsd, St.emit]
  set st1 : St := ⟨st.fs.insert opts.StateDir (Entry.dir 0o755),
    st.trace ++ [Event.mkdirAll opts.StateDir 0o755]⟩ with hst1
  have habs1 : st1.fs.lookup (filepathJoin opts.StateDir "smb.conf") = none := by
    rw [hst1]
    simp only
    rw [FS.lookup_insert_ne _ _ _ _ (fun e => stateDir_ne_conf opts.StateDir e.symm)]
    exact habs
  have hfs1 : ∀ d ∈ populatedDirectorySettings opts.StateDir,
      st1.fs.lookup d.AbsolutePath = none ∨
      st1.fs.lookup d.AbsolutePath = some (.dir 0o755) := by
    intro d hd
    by_cases hds : d.AbsolutePath = opts.StateDir
    · right
      rw [hst1]
      simp only [hds]
      exact FS.lookup_insert_self _ _ _
    · rcases hfs d hd with h | h
      · left; rw [hst1]; simpa [FS.lookup_insert_ne _ _ _ _ hds] using h
      · right; rw [hst1]; simpa [FS.lookup_insert_ne _ _ _ _ hds] using h
  obtain ⟨hiff, herr, hok⟩ := initSMBConf_fresh env (serverFor opts) st1 hstat habs1
    hopen (conf_ne_dirs opts.StateDir) hfs1
  rcases hi : (serverFor opts).initSMBConfIfNecessary env st1 with ⟨ri, st2⟩
  rw [hi] at hiff herr hok
  simp only at hiff herr hok
  have hri : ri = .ok () := hiff.mpr henv
  subst hri
  obtain ⟨htr2, hconf2, hdirs2⟩ := hok rfl
  have hstartok := start_ok env (serverFor opts) st2 p hl h1 h2
  rw [Start_shape, hstep]
  simp only [hi, hstartok]
  refine ⟨by trivial, ?_, ?_⟩
  · exact hconf2
  · exact hdirs2

def runErrOnce : Nat → Option String :=
  fun k => if k = 0 then some "exit status 1" else none

def stWithConf : St := ⟨⟨[("/tmp/st/smb.conf", Entry.file 0o600 "junk")]⟩, []⟩

theorem supervisorTrace_run_count (runErr : Nat → Option String) :
    ∀ n, (supervisorTrace runErr n).count LoopEvent.run = n := by
  intro n
  induction n with
  | zero => rfl
  | succ n ih =>
    simp only [supervisorTrace, List.count_append, ih]
    cases runErr n <;> simp [supervisorIter, List.count_cons]

/-- C2 (counterexample): the claim says the loop waits one backoff
interval after *every* subprocess exit, including a zero exit status.
In the code the `time.Sleep` is inside `if err != nil`: when `Run`
returns no error (zero exit status) the loop re-runs immediately, with
no sleep — two consecutive runs with no sleep between them. -/
theorem C2_counterexample_zero_exit_no_backoff :
    LoopEvent.sleepSeconds 1 ∉ supervisorIter none ∧
    supervisorIter none = [LoopEvent.run] ∧
    supervisorTrace runErrAlwaysZero 2 = [LoopEvent.run, LoopEvent.run] := by
  refine ⟨by decide, rfl, rfl⟩

/-- C2 (amended): after an exit where `Run` returned an error (nonzero
status, or a launch failure), the loop logs and sleeps one second
before re-running; after a zero-status exit it re-runs immediately
with no backoff; the loop iterates forever (iteration `n+1` always
extends iteration `n`, and `n` iterations contain exactly `n` runs). -/
theorem C2_amended_backoff_only_on_error (runErr : Nat → Option String) (n : Nat) :
    (∀ m, runErr n = some m → supervisorIter (runErr n) =
      [LoopEvent.run, LoopEvent.logRestart m, LoopEvent.sleepSeconds 1]) ∧
    (runErr n = none → supervisorIter (runErr n) = [LoopEvent.run]) ∧
    supervisorTrace runErr (n + 1) =
      supervisorTrace runErr n ++ supervisorIter (runErr n) ∧
    (supervisorTrace runErr n).count LoopEvent.run = n := by
  refine ⟨?_, ?_, rfl, supervisorTrace_run_count runErr n⟩
  · intro m hm; rw [hm]; rfl
  · intro h; rw [h]; rfl

/-- Witness for C2 (amended) at a concrete run-outcome stream: the
first run fails (logged, then 1s sleep), the second exits cleanly (no
sleep), and two iterations contain exactly two runs. -/
theorem C2_amended_backoff_witness :
    supervisorIter (runErrOnce 0) =
      [LoopEvent.run, LoopEvent.logRestart "exit status 1", LoopEvent.sleepSeconds 1] ∧
    supervisorIter (runErrOnce 1) = [LoopEvent.run] ∧
    supervisorTrace runErrOnce 2 =
      supervisorTrace runErrOnce 1 ++ supervisorIter (runErrOnce 1) ∧
    (supervisorTrace runErrOnce 2).count LoopEvent.run = 2 :=
  ⟨(C2_amended_backoff_only_on_error runErrOnce 0).1 "exit status 1" (by decide),
   (C2_amended_backoff_only_on_error runErrOnce 1).2.1 (by decide),
   (C2_amended_backoff_only_on_error runErrOnce 1).2.2.1,
   (C2_amended_backoff_only_on_error runErrOnce 2).2.2.2⟩

/-- C1 (counterexample): the claim says that when the `SMBDCommand`
cannot be launched, `Start` returns an error.  In the code the first
launch happens inside the supervisor goroutine (`cmd.Run`), after
`start` has already returned: with every OS call succeeding but a
non-launchable command (every `Run` fails immediately), `Start`
returns a server handle, and the launch failure only shows up in the
supervisor loop, which logs it and sleeps. -/
theorem C1_counterexample_start_ok_despite_unlaunchable :
    runErrLaunchFail 0 =
      some "fork/exec /nonexistent/smbd: no such file or directory" ∧
    (Start envAllOK optsMissingSMBD st0).1.isOk = true ∧
    supervisorTrace runErrLaunchFail 1 =
      [LoopEvent.run,
       LoopEvent.logRestart "fork/exec /nonexistent/smbd: no such file or directory",
       LoopEvent.sleepSeconds 1] := by
  refine ⟨rfl, rfl, rfl⟩

/-- C1 (amended): `Start` never consults whether the daemon command
can be launched: whenever directory creation, the config bootstrap,
the port listen and the two pipes succeed, `Start` returns a server
handle — for an arbitrary `SMBDCommand`, launchable or not.  A failed
launch is observed only as a `Run` error inside the supervisor loop,
which logs it and sleeps the fixed backoff before retrying. -/
theorem C1_amended_launch_failure_not_surfaced :
    (∀ (env : OSEnv) (opts : Opts) (st : St) (p : Nat),
      env.mkdirErr opts.StateDir = none →
      st.fs.lookup opts.StateDir = none →
      env.statErr (filepathJoin opts.StateDir "smb.conf") = none →
      st.fs.lookup (filepathJoin opts.StateDir "smb.conf") = none →
      env.openErr (filepathJoin opts.StateDir "smb.conf") = none →
      (∀ d ∈ populatedDirectorySettings opts.StateDir,
        env.mkdirErr d.AbsolutePath = none) →
      (∀ d ∈ populatedDirectorySettings opts.StateDir,
        st.fs.lookup d.AbsolutePath = none ∨
        st.fs.lookup d.AbsolutePath = some (.dir 0o755)) →
      env.listen = .ok p → env.stdoutPipeErr = none → env.stderrPipeErr = none →
      (Start env opts st).1.isOk = true) ∧
    (∀ m, supervisorIter (some m) =
      [LoopEvent.run, LoopEvent.logRestart m, LoopEvent.sleepSeconds 1]) := by
  constructor
  · intro env opts st p hmk hsd hstat habs hopen henv hfs hl h1 h2
    obtain ⟨hok, _, _⟩ :=
      Start_fresh_ok env opts st p hmk hsd hstat habs hopen henv hfs hl h1 h2
    rw [hok]
    rfl
  · intro m; rfl

/-- Witness for C1 (amended): with every OS call succeeding and the
non-launchable command `/nonexistent/smbd`, `Start` still returns a
server handle, and the supervisor loop logs and sleeps on the launch
failure. -/
theorem C1_amended_launch_witness :
    (Start envAllOK optsMissingSMBD st0).1.isOk = true ∧
    supervisorIter (runErrLaunchFail 0) =
      [LoopEvent.run,
       LoopEvent.logRestart "fork/exec /nonexistent/smbd: no such file or directory",
       LoopEvent.sleepSeconds 1] :=
  ⟨C1_amended_launch_failure_not_surfaced.1 envAllOK optsMissingSMBD st0 44123
    rfl rfl rfl rfl rfl (by decide) (by decide) rfl rfl rfl,
   C1_amended_launch_failure_not_surfaced.2
     "fork/exec /nonexistent/smbd: no such file or directory"⟩

/-- C3 (counterexample): the claim says all descriptor directories are
created before the configuration file, and that a directory-creation
failure leaves no configuration file.  In the code
`os.OpenFile(..., O_CREATE, 0644)` runs before the directory loop:
with directory creation failing on `/tmp/st/log`, bootstrap aborts
with the structured error naming that path, yet an (empty)
configuration file has already been created at the config path, and
the trace shows the file creation before any directory creation. -/
theorem C3_counterexample_file_created_first :
    (serverA.initSMBConfIfNecessary envLogMkdirFails st0).1 =
      .error "create /tmp/st/log: permission denied" ∧
    (serverA.initSMBConfIfNecessary envLogMkdirFails st0).2.fs.lookup
      "/tmp/st/smb.conf" = some (Entry.file 0o644 "") ∧
    (serverA.initSMBConfIfNecessary envLogMkdirFails st0).2.trace =
      [Event.stat "/tmp/st/smb.conf", Event.openFileCreate "/tmp/st/smb.conf" 0o644,
       Event.mkdirAll "/tmp/st" 0o755, Event.mkdirAll "/tmp/st/log" 0o755] := by
  refine ⟨rfl, rfl, rfl⟩

/-- C3 (amended): when the configuration file is absent, bootstrap
first creates an *empty* configuration file (mode 0644) at the config
path, then creates every descriptor directory in list order with its
permission mode, and renders the template into the file only after all
directories exist; bootstrap succeeds exactly when every directory
creation succeeds, and a directory-creation failure aborts with a
structured error naming the failed path while leaving the
already-created empty configuration file in place. -/
theorem C3_amended_file_before_dirs (env : OSEnv) (s : Server) (st : St)
    (hstat : env.statErr s.smbConfPath = none)
    (habs : st.fs.lookup s.smbConfPath = none)
    (hopen : env.openErr s.smbConfPath = none)
    (hne : ∀ d ∈ populatedDirectorySettings s.opts.StateDir,
      ¬ d.AbsolutePath = s.smbConfPath)
    (hfs : ∀ d ∈ populatedDirectorySettings s.opts.StateDir,
      st.fs.lookup d.AbsolutePath = none ∨
      st.fs.lookup d.AbsolutePath = some (.dir 0o755)) :
    ((s.initSMBConfIfNecessary env st).1 = .ok () ↔
      ∀ d ∈ populatedDirectorySettings s.opts.StateDir,
        env.mkdirErr d.AbsolutePath = none) ∧
    (∀ e, (s.initSMBConfIfNecessary env st).1 = Except.error e →
      (∃ d ∈ populatedDirectorySettings s.opts.StateDir, ∃ m,
        env.mkdirErr d.AbsolutePath = some m ∧
        e = "create " ++ d.AbsolutePath ++ ": " ++ m) ∧
      (s.initSMBConfIfNecessary env st).2.fs.lookup s.smbConfPath =
        some (.file 0o644 "")) ∧
    ((s.initSMBConfIfNecessary env st).1 = .ok () →
      (s.initSMBConfIfNecessary env st).2.trace =
        st.trace ++ [Event.stat s.smbConfPath,
          Event.openFileCreate s.smbConfPath 0o644] ++
        (populatedDirectorySettings s.opts.StateDir).map
          (fun d => Event.mkdirAll d.AbsolutePath d.perm) ++
        [Event.templateExecute s.smbConfPath] ∧
      (s.initSMBConfIfNecessary env st).2.fs.lookup s.smbConfPath =
        some (.file 0o644
          (renderSMBConf (populatedDirectorySettings s.opts.StateDir))) ∧
      ∀ d ∈ populatedDirectorySettings s.opts.StateDir,
        (s.initSMBConfIfNecessary env st).2.fs.lookup d.AbsolutePath =
          some (.dir 0o755)) :=
  initSMBConf_fresh env s st hstat habs hopen hne hfs

/-- Witness for C3 (amended): concrete successful bootstrap in an
empty state — it succeeds, its trace shows file creation before the
eleven directory creations and the template render last, and the file
holds the rendered configuration. -/
theorem C3_amended_witness :
    (serverA.initSMBConfIfNecessary envAllOK st0).1 = .ok () ∧
    (serverA.initSMBConfIfNecessary envAllOK st0).2.trace =
      [] ++ [Event.stat "/tmp/st/smb.conf",
        Event.openFileCreate "/tmp/st/smb.conf" 0o644] ++
      (populatedDirectorySettings "/tmp/st").map
        (fun d => Event.mkdirAll d.AbsolutePath d.perm) ++
      [Event.templateExecute "/tmp/st/smb.conf"] ∧
    (serverA.initSMBConfIfNecessary envAllOK st0).2.fs.lookup "/tmp/st/smb.conf" =
      some (.file 0o644 (renderSMBConf (populatedDirectorySettings "/tmp/st"))) := by
  have h := C3_amended_file_before_dirs envAllOK serverA st0 rfl rfl rfl
    (by decide) (by decide)
  have hok : (serverA.initSMBConfIfNecessary envAllOK st0).1 = .ok () :=
    h.1.mpr (by decide)
  exact ⟨hok, (h.2.2 hok).1, (h.2.2 hok).2.1⟩

/-- C4: bootstrap skips when the configuration file exists (any mode,
any content — no validation, no directory work, filesystem untouched),
and bootstrapping twice from a fresh state succeeds both times and
leaves the filesystem of the first run unchanged (same configuration
file content). -/
theorem C4_bootstrap_idempotent :
    (∀ (env : OSEnv) (s : Server) (st : St) (pm : Nat) (c : String),
      env.statErr s.smbConfPath = none →
      st.fs.lookup s.smbConfPath = some (.file pm c) →
      s.initSMBConfIfNecessary env st =
        (.ok (), ⟨st.fs, st.trace ++ [Event.stat s.smbConfPath]⟩)) ∧
    (∀ (env : OSEnv) (s : Server) (st : St),
      env.statErr s.smbConfPath = none →
      st.fs.lookup s.smbConfPath = none →
      env.openErr s.smbConfPath = none →
      (∀ d ∈ populatedDirectorySettings s.opts.StateDir,
        ¬ d.AbsolutePath = s.smbConfPath) →
      (∀ d ∈ populatedDirectorySettings s.opts.StateDir,
        st.fs.lookup d.AbsolutePath = none ∨
        st.fs.lookup d.AbsolutePath = some (.dir 0o755)) →
      (∀ d ∈ populatedDirectorySettings s.opts.StateDir,
        env.mkdirErr d.AbsolutePath = none) →
      (s.initSMBConfIfNecessary env st).1 = .ok () ∧
      (s.initSMBConfIfNecessary env
        (s.initSMBConfIfNecessary env st).2).1 = .ok () ∧
      (s.initSMBConfIfNecessary env
        (s.initSMBConfIfNecessary env st).2).2.fs =
        (s.initSMBConfIfNecessary env st).2.fs) := by
  constructor
  · intro env s st pm c hstat hex
    rw [initSMBConf_skip env s st (.file pm c) hstat hex]
    rfl
  · intro env s st hstat habs hopen hne hfs henv
    obtain ⟨hiff, _, hok⟩ := initSMBConf_fresh env s st hstat habs hopen hne hfs
    have h1 : (s.initSMBConfIfNecessary env st).1 = .ok () := hiff.mpr henv
    obtain ⟨_, hconf, _⟩ := hok h1
    have hskip := initSMBConf_skip env s (s.initSMBConfIfNecessary env st).2
      (.file 0o644 (renderSMBConf (populatedDirectorySettings s.opts.StateDir)))
      hstat hconf
    refine ⟨h1, ?_, ?_⟩
    · simp [hskip]
    · simp [hskip, St.emit]

/-- Witness for C4: skip-on-exists at a state holding an arbitrary
pre-existing file (mode 0600, content "junk"), and idempotence from
the empty state. -/
theorem C4_bootstrap_witness :
    serverA.initSMBConfIfNecessary envAllOK stWithConf =
      (.ok (), ⟨stWithConf.fs, [Event.stat "/tmp/st/smb.conf"]⟩) ∧
    (serverA.initSMBConfIfNecessary envAllOK st0).1 = .ok () ∧
    (serverA.initSMBConfIfNecessary envAllOK
      (serverA.initSMBConfIfNecessary envAllOK st0).2).1 = .ok () ∧
    (serverA.initSMBConfIfNecessary envAllOK
      (serverA.initSMBConfIfNecessary envAllOK st0).2).2.fs =
      (serverA.initSMBConfIfNecessary envAllOK st0).2.fs := by
  have hskip := C4_bootstrap_idempotent.1 envAllOK serverA stWithConf 0o600 "junk"
    rfl rfl
  have h2 := C4_bootstrap_idempotent.2 envAllOK serverA st0 rfl rfl rfl
    (by decide) (by decide) (by decide)
  exact ⟨hskip, h2.1, h2.2.1, h2.2.2⟩

/-- C6: a stat failure on the configuration path with a cause other
than "does not exist" makes bootstrap return the structured
"check ... exists" error wrapping the stat failure, with the
filesystem untouched and nothing created (the trace holds only the
stat). -/
theorem C6_stat_error_propagation (env : OSEnv) (s : Server) (st : St) (m : String)
    (h : env.statErr s.smbConfPath = some m) :
    (s.initSMBConfIfNecessary env st).1 =
      .error ("check " ++ s.smbConfPath ++ " exists: " ++ m) ∧
    (s.initSMBConfIfNecessary env st).2.fs = st.fs ∧
    (s.initSMBConfIfNecessary env st).2.trace =
      st.trace ++ [Event.stat s.smbConfPath] := by
  rw [initSMBConf_statfail env s st m h]
  exact ⟨rfl, rfl, rfl⟩

/-- Witness for C6: a concrete permission-denied stat failure. -/
theorem C6_stat_error_witness :
    (serverA.initSMBConfIfNecessary envStatFails st0).1 =
      .error ("check " ++ "/tmp/st/smb.conf" ++ " exists: " ++ "permission denied") ∧
    (serverA.initSMBConfIfNecessary envStatFails st0).2.fs = st0.fs ∧
    (serverA.initSMBConfIfNecessary envStatFails st0).2.trace =
      st0.trace ++ [Event.stat "/tmp/st/smb.conf"] :=
  C6_stat_error_propagation envStatFails serverA st0 "permission denied" rfl

/-- C5: for any state directory (no newline in it, nonempty, not
ending in whitespace), the rendered configuration's non-blank trimmed
lines are exactly: the `[global]` header, the five fixed keys (server
role, interfaces, registry shares, config backend, log level), and
then one line `<setting> = <absolutePath>` per descriptor in the fixed
list order, where the absolute path is the state directory joined with
the descriptor's relative subpath. -/
theorem C5_config_content (stateDir : String)
    (h1 : '\n' ∉ stateDir.data)
    (h2 : stateDir.data.reverse ≠ [] ∧
      (stateDir.data.reverse.headD ' ').isWhitespace = false) :
    confLines (renderSMBConf (populatedDirectorySettings stateDir)) =
      [("[global]" : String).data,
       ("server role     = standalone server" : String).data,
       ("interfaces      = 127.0.0.1" : String).data,
       ("registry shares = no" : String).data,
       ("config backend  = file" : String).data,
       ("log level       = 5" : String).data]
      ++ directorySettings.map
          (fun d => (d.Setting ++ " = " ++ filepathJoin stateDir d.path).data) := by
  have hmain : ∀ d ∈ directorySettings,
      trimCh (("        " : String).data
          ++ (d.Setting ++ " = " ++ filepathJoin stateDir d.path).data)
        = (d.Setting ++ " = " ++ filepathJoin stateDir d.path).data ∧
      ((d.Setting ++ " = " ++ filepathJoin stateDir d.path).data).isEmpty = false := by
    intro d hd
    fin_cases hd
    · simpa [filepathJoin] using trim_line_base stateDir "state directory"
        (exists_cons_of_headD (by decide) (by decide))
        (exists_cons_of_headD h2.1 h2.2)
    · simpa [filepathJoin] using trim_line_slash stateDir "log file" "log"
        (exists_cons_of_headD (by decide) (by decide))
        (exists_cons_of_headD (by decide) (by decide))
    · simpa [filepathJoin] using trim_line_slash stateDir "pid directory" "pid"
        (exists_cons_of_headD (by decide) (by decide))
        (exists_cons_of_headD (by decide) (by decide))
    · simpa [filepathJoin] using trim_line_slash stateDir "lock directory" "private"
        (exists_cons_of_headD (by decide) (by decide))
        (exists_cons_of_headD (by decide) (by decide))
    · simpa [filepathJoin] using trim_line_slash stateDir "private dir" "private"
        (exists_cons_of_headD (by decide) (by decide))
        (exists_cons_of_headD (by decide) (by decide))
    · simpa [filepathJoin] using trim_line_slash stateDir "binddns dir" "bind-dns"
        (exists_cons_of_headD (by decide) (by decide))
        (exists_cons_of_headD (by decide) (by decide))
    · simpa [filepathJoin] using trim_line_slash stateDir "cache directory" "cache"
        (exists_cons_of_headD (by decide) (by decide))
        (exists_cons_of_headD (by decide) (by decide))
    · simpa [filepathJoin] using trim_line_slash stateDir "ncalrpc dir" "ncalrpc"
        (exists_cons_of_headD (by decide) (by decide))
        (exists_cons_of_headD (by decide) (by decide))
    · simpa [filepathJoin] using trim_line_slash stateDir
        "ntp signed socket directory" "ntp_signd"
        (exists_cons_of_headD (by decide) (by decide))
        (exists_cons_of_headD (by decide) (by decide))
    · simpa [filepathJoin] using trim_line_slash stateDir "usershare path" "usershares"
        (exists_cons_of_headD (by decide) (by decide))
        (exists_cons_of_headD (by decide) (by decide))
    · simpa [filepathJoin] using trim_line_slash stateDir
        "winbdd socket directory" "winbindd"
        (exists_cons_of_headD (by decide) (by decide))
        (exists_cons_of_headD (by decide) (by decide))
  unfold confLines
  rw [renderSMBConf_data, splitLinesCh_flat _ (confLinesRaw_no_nl _ h1)]
  unfold confLinesRaw
  rw [List.append_assoc]
  simp only [List.map_append, List.filter_append, List.map_cons, List.map_nil,
    List.filter_cons, List.filter_nil]
  rw [trimmed_flat stateDir directorySettings hmain]
  norm_num [show trimCh ([] : List Char) = [] from by decide,
    show trimCh ("[global]" : String).data = ("[global]" : String).data from by decide,
    show trimCh ("        server role     = standalone server" : String).data
      = ("server role     = standalone server" : String).data from by decide,
    show trimCh ("        interfaces      = 127.0.0.1" : String).data
      = ("interfaces      = 127.0.0.1" : String).data from by decide,
    show trimCh ("        registry shares = no" : String).data
      = ("registry shares = no" : String).data from by decide,
    show trimCh ("        config backend  = file" : String).data
      = ("config backend  = file" : String).data from by decide,
    show trimCh ("\t\tlog level       = 5" : String).data
      = ("log level       = 5" : String).data from by decide,
    show trimCh ("        " : String).data = [] from by decide]

/-- Witness for C5 at the concrete state directory `/tmp/st`. -/
theorem C5_config_content_witness :
    confLines (renderSMBConf (populatedDirectorySettings "/tmp/st")) =
      [("[global]" : String).data,
       ("server role     = standalone server" : String).data,
       ("interfaces      = 127.0.0.1" : String).data,
       ("registry shares = no" : String).data,
       ("config backend  = file" : String).data,
       ("log level       = 5" : String).data]
      ++ directorySettings.map
          (fun d => (d.Setting ++ " = " ++ filepathJoin "/tmp/st" d.path).data) :=
  C5_config_content "/tmp/st" (by decide) ⟨by decide, by decide⟩

/-- C7: `start` binds a TCP listener on loopback `127.0.0.1:0`,
records the OS-assigned port in the `Port` field, closes the listener
before building the subprocess command (the trace shows `closeListener`
strictly before `command`); with a positive OS-assigned port the
reported port is nonzero; a listen failure is returned as the
structured "listen" error. -/
theorem C7_port_reservation (env : OSEnv) (s : Server) (st : St) :
    (∀ p : Nat, env.listen = .ok p → 0 < p →
      env.stdoutPipeErr = none → env.stderrPipeErr = none →
      Server.start env s st =
        (.ok ⟨s.opts, s.smbConfPath, s.opts.SMBDCommand,
          ["--configfile=" ++ s.smbConfPath, "--port=" ++ toString p,
           "--foreground", "--no-process-group", "--debug-stdout"], p⟩,
         ⟨st.fs, st.trace ++ [Event.listen "127.0.0.1:0", Event.closeListener,
           Event.command s.opts.SMBDCommand
             ["--configfile=" ++ s.smbConfPath, "--port=" ++ toString p,
              "--foreground", "--no-process-group", "--debug-stdout"],
           Event.stdoutPipe, Event.stderrPipe, Event.goRelayStdout,
           Event.goRelayStderr, Event.goSupervisor]⟩) ∧ p ≠ 0) ∧
    (∀ m, env.listen = .error m →
      Server.start env s st =
        (.error ("listen: " ++ m),
         ⟨st.fs, st.trace ++ [Event.listen "127.0.0.1:0"]⟩)) := by
  constructor
  · intro p hl hp h1 h2
    exact ⟨start_ok env s st p hl h1 h2, Nat.pos_iff_ne_zero.mp hp⟩
  · intro m hl
    exact start_listen_fail env s st m hl

/-- Witness for C7: a successful start at port 44123 and a failing
listen, both concrete. -/
theorem C7_port_witness :
    (Server.start envAllOK serverA st0 =
      (.ok ⟨optsA, "/tmp/st/smb.conf", "/usr/sbin/smbd",
        ["--configfile=" ++ "/tmp/st/smb.conf", "--port=" ++ toString 44123,
         "--foreground", "--no-process-group", "--debug-stdout"], 44123⟩,
       ⟨st0.fs, st0.trace ++ [Event.listen "127.0.0.1:0", Event.closeListener,
         Event.command "/usr/sbin/smbd"
           ["--configfile=" ++ "/tmp/st/smb.conf", "--port=" ++ toString 44123,
            "--foreground", "--no-process-group", "--debug-stdout"],
         Event.stdoutPipe, Event.stderrPipe, Event.goRelayStdout,
         Event.goRelayStderr, Event.goSupervisor]⟩) ∧ (44123 : Nat) ≠ 0) ∧
    Server.start envListenFails serverA st0 =
      (.error ("listen: " ++ "address already in use"),
       ⟨st0.fs, st0.trace ++ [Event.listen "127.0.0.1:0"]⟩) :=
  ⟨(C7_port_reservation envAllOK serverA st0).1 44123 rfl (by decide) rfl rfl,
   (C7_port_reservation envListenFails serverA st0).2 "address already in use" rfl⟩

/-- C8: the descriptor list is a fixed ordered list of exactly eleven
triples, all with permission mode 0755; `lock directory` and
`private dir` are exactly the descriptors sharing the relative subpath
`private`; the first descriptor is `state directory` with the empty
relative subpath, so its populated absolute path is the base state
directory itself. -/
theorem C8_descriptor_list :
    directorySettings.length = 11 ∧
    directorySettings.all (fun d => d.perm == 0o755) = true ∧
    (directorySettings.filter (fun d => d.path == "private")).map
      (fun d => d.Setting) = ["lock directory", "private dir"] ∧
    directorySettings.head?.map (fun d => (d.Setting, d.path)) =
      some ("state directory", "") ∧
    ∀ stateDir : String,
      (populatedDirectorySettings stateDir).head?.map (fun d => d.AbsolutePath) =
        some stateDir := by
  refine ⟨by decide, by decide, by decide, by decide, ?_⟩
  intro sd
  simp [populatedDirectorySettings, directorySettings, filepathJoin]

/-- C9: every successful `start` builds the smbd command with exactly
the five arguments `--configfile=<conf>`, `--port=<port>`,
`--foreground`, `--no-process-group`, `--debug-stdout`, in that order,
and invokes the configured SMBD command. -/
theorem C9_smbd_args (env : OSEnv) (s : Server) (st : St) (s' : Server) (st' : St)
    (h : Server.start env s st = (.ok s', st')) :
    s'.cmdName = s.opts.SMBDCommand ∧
    s'.cmdArgs = ["--configfile=" ++ s.smbConfPath, "--port=" ++ toString s'.Port,
      "--foreground", "--no-process-group", "--debug-stdout"] := by
  cases hl : env.listen with
  | error m =>
    rw [start_listen_fail env s st m hl] at h
    have h1 := congrArg Prod.fst h
    simp at h1
  | ok p =>
    cases h1 : env.stdoutPipeErr with
    | some m =>
      have hfail : Server.start env s st =
          (.error ("stdout pipe: " ++ m),
           ⟨st.fs, st.trace ++ [Event.listen "127.0.0.1:0", Event.closeListener,
             Event.command s.opts.SMBDCommand
               ["--configfile=" ++ s.smbConfPath, "--port=" ++ toString p,
                "--foreground", "--no-process-group", "--debug-stdout"],
             Event.stdoutPipe]⟩) := by
        simp [Server.start, hl, h1, St.emit]
      rw [hfail] at h
      have h1 := congrArg Prod.fst h
      simp at h1
    | none =>
      cases h2 : env.stderrPipeErr with
      | some m =>
        have hfail : Server.start env s st =
            (.error ("stderr pipe: " ++ m),
             ⟨st.fs, st.trace ++ [Event.listen "127.0.0.1:0", Event.closeListener,
               Event.command s.opts.SMBDCommand
                 ["--configfile=" ++ s.smbConfPath, "--port=" ++ toString p,
                  "--foreground", "--no-process-group", "--debug-stdout"],
               Event.stdoutPipe, Event.stderrPipe]⟩) := by
          simp [Server.start, hl, h1, h2, St.emit]
        rw [hfail] at h
        have h1 := congrArg Prod.fst h
        simp at h1
      | none =>
        rw [start_ok env s st p hl h1 h2] at h
        have hfst := congrArg Prod.fst h
        simp only at hfst
        have hR := Except.ok.inj hfst
        subst hR
        exact ⟨rfl, rfl⟩

/-- Witness for C9 at a concrete successful start. -/
theorem C9_smbd_args_witness :
    (⟨optsA, "/tmp/st/smb.conf", "/usr/sbin/smbd",
      ["--configfile=/tmp/st/smb.conf", "--port=44123", "--foreground",
       "--no-process-group", "--debug-stdout"], 44123⟩ : Server).cmdName =
      optsA.SMBDCommand ∧
    (⟨optsA, "/tmp/st/smb.conf", "/usr/sbin/smbd",
      ["--configfile=/tmp/st/smb.conf", "--port=44123", "--foreground",
       "--no-process-group", "--debug-stdout"], 44123⟩ : Server).cmdArgs =
      ["--configfile=" ++ serverA.smbConfPath,
       "--port=" ++ toString (⟨optsA, "/tmp/st/smb.conf", "/usr/sbin/smbd",
         ["--configfile=/tmp/st/smb.conf", "--port=44123", "--foreground",
          "--no-process-group", "--debug-stdout"], 44123⟩ : Server).Port,
       "--foreground", "--no-process-group", "--debug-stdout"] :=
  C9_smbd_args envAllOK serverA st0 _ _ rfl

/-- C10 (implicit behaviour): `Start` unconditionally issues
`MkdirAll(StateDir, 0755)` as its very first OS action, before the
configuration-file existence check — so on the skip path a missing
base state directory is recreated while the existing configuration
file is left untouched — and on the bootstrap path the configuration
file itself is created with mode 0644. -/
theorem C10_basedir_and_file_mode :
    (∀ (env : OSEnv) (opts : Opts) (st : St),
      ∃ rest, (Start env opts st).2.trace =
        st.trace ++ Event.mkdirAll opts.StateDir 0o755 :: rest) ∧
    (∀ (env : OSEnv) (opts : Opts) (st : St) (pm : Nat) (c : String),
      env.mkdirErr opts.StateDir = none →
      st.fs.lookup opts.StateDir = none →
      env.statErr (filepathJoin opts.StateDir "smb.conf") = none →
      st.fs.lookup (filepathJoin opts.StateDir "smb.conf") = some (.file pm c) →
      (Start env opts st).2.fs.lookup opts.StateDir = some (.dir 0o755) ∧
      (Start env opts st).2.fs.lookup (filepathJoin opts.StateDir "smb.conf") =
        some (.file pm c) ∧
      (Start env opts st).2.trace =
        st.trace ++ Event.mkdirAll opts.StateDir 0o755 ::
          Event.stat (filepathJoin opts.StateDir "smb.conf") ::
          ((Start env opts st).2.trace.drop (st.trace.length + 2))) ∧
    (∀ (env : OSEnv) (opts : Opts) (st : St) (p : Nat),
      env.mkdirErr opts.StateDir = none →
      st.fs.lookup opts.StateDir = none →
      env.statErr (filepathJoin opts.StateDir "smb.conf") = none →
      st.fs.lookup (filepathJoin opts.StateDir "smb.conf") = none →
      env.openErr (filepathJoin opts.StateDir "smb.conf") = none →
      (∀ d ∈ populatedDirectorySettings opts.StateDir,
        env.mkdirErr d.AbsolutePath = none) →
      (∀ d ∈ populatedDirectorySettings opts.StateDir,
        st.fs.lookup d.AbsolutePath = none ∨
        st.fs.lookup d.AbsolutePath = some (.dir 0o755)) →
      env.listen = .ok p → env.stdoutPipeErr = none → env.stderrPipeErr = none →
      (Start env opts st).2.fs.lookup (filepathJoin opts.StateDir "smb.conf") =
        some (.file 0o644
          (renderSMBConf (populatedDirectorySettings opts.StateDir)))) := by
  refine ⟨Start_trace_first, ?_, ?_⟩
  · intro env opts st pm c hmk hsd hstat hex
    exact Start_skip_fs env opts st pm c hmk hsd hstat hex
  · intro env opts st p hmk hsd hstat habs hopen henv hfs hl h1 h2
    exact (Start_fresh_ok env opts st p hmk hsd hstat habs hopen henv hfs hl h1 h2).2.1

/-- Witness for C10: with an existing configuration file (mode 0600,
arbitrary content) and no state directory, `Start` recreates the base
directory with mode 0755 and leaves the file untouched; from the empty
state, the bootstrap path creates the configuration file with mode
0644. -/
theorem C10_basedir_witness :
    ((Start envAllOK optsA stWithConf).2.fs.lookup "/tmp/st" =
      some (.dir 0o755) ∧
     (Start envAllOK optsA stWithConf).2.fs.lookup
       (filepathJoin "/tmp/st" "smb.conf") = some (.file 0o600 "junk") ∧
     (Start envAllOK optsA stWithConf).2.trace =
       stWithConf.trace ++ Event.mkdirAll "/tmp/st" 0o755 ::
         Event.stat (filepathJoin "/tmp/st" "smb.conf") ::
         ((Start envAllOK optsA stWithConf).2.trace.drop
           (stWithConf.trace.length + 2))) ∧
    (Start envAllOK optsA st0).2.fs.lookup (filepathJoin "/tmp/st" "smb.conf") =
      some (.file 0o644 (renderSMBConf (populatedDirectorySettings "/tmp/st"))) :=
  ⟨C10_basedir_and_file_mode.2.1 envAllOK optsA stWithConf 0o600 "junk"
     rfl rfl rfl rfl,
   C10_basedir_and_file_mode.2.2 envAllOK optsA st0 44123
     rfl rfl rfl rfl rfl (by decide) (by decide) rfl rfl rfl⟩
